import Mathlib

/-!
Shallow embedding of the rmesh core (rmesh-core): the device-state store
(src/rmesh-core/src/state.rs), the packet-ingestion dispatch and the request
correlation registries (src/rmesh-core/src/connection/manager.rs), the config
key lookup (src/rmesh-core/src/config.rs) and the position request\x27s
cached-if-fresh check (src/rmesh-core/src/position.rs).

Modelling conventions:
* Rust u32 and u64 values are Nat (with explicit mod 2^64 where wrap-around
  matters); i32 values are Int.
* f32 and f64 values are carried as opaque bit patterns (Nat); none of the
  verified paths computes with them, they are only copied.  The one exception,
  latitude and longitude (stored as lat_i as f64 / 1e7), is carried as the
  source integer, a faithful proxy because the map i to i/1e7 is injective on
  the i32 range.
* The binary protobuf codec and the Debug/rfc3339/enum-name renderings are
  external collaborators (out of scope per the repository design); decoded
  payloads are therefore modelled at the codec boundary: a payload value is
  the decode result itself, and the port-specific decoder succeeds exactly
  when the payload has the matching shape.
* HashMap<u32, V> is modelled as an association list with unique keys
  (insert replaces in place, remove drops the key); the two oneshot-waiter
  registries only need their key sets, so they are modelled as lists of ids.
  Resolving a oneshot sender is modelled as an emitted event (id, value).
-/

namespace RMesh

/-! ## Small helpers: hex rendering, wrapping arithmetic, association maps -/

/-- Lower-case hex digit, as produced by Rust format with the x specifier. -/
def hexChar (n : Nat) : Char :=
  if n < 10 then Char.ofNat (48 + n) else Char.ofNat (87 + n)

/-- Rust format "{:08x}" of a u32: eight lower-case hex digits. -/
def hex8 (n : Nat) : String :=
  String.mk ((List.range 8).map (fun i => hexChar (n / 16 ^ (7 - i) % 16)))

/-- hex::encode of a byte vector: two lower-case hex digits per byte. -/
def hexEncode (bytes : List Nat) : String :=
  String.mk (bytes.foldr (fun b acc => hexChar (b / 16) :: hexChar (b % 16) :: acc) [])

/-- 2^64, written out so that all kernel arithmetic stays on literals. -/
def u64Mod : Nat := 18446744073709551616

/-- Wrapping u64 subtraction a - b (release-mode Rust semantics), for
    a, b < 2^64. -/
def wrapSub64 (a b : Nat) : Nat := (u64Mod + a - b % u64Mod) % u64Mod

/-- u32 reinterpretation of an i32 (the channel.index as u32 cast). -/
def u32OfI32 (i : Int) : Nat := (i % 4294967296).toNat

/-- Association-list lookup, the model of HashMap::get. -/
def lookupKey {α : Type} (k : Nat) : List (Nat × α) → Option α
  | [] => none
  | (k2, v) :: rest => if k2 = k then some v else lookupKey k rest

/-- Association-list insert, the model of HashMap::insert: replaces the
    binding in place when the key is present, otherwise appends. -/
def insertKey {α : Type} (k : Nat) (v : α) : List (Nat × α) → List (Nat × α)
  | [] => [(k, v)]
  | (k2, v2) :: rest => if k2 = k then (k, v) :: rest else (k2, v2) :: insertKey k v rest

/-- Key set of a waiter registry after HashMap::insert. -/
def insertId (k : Nat) (l : List Nat) : List Nat := if k ∈ l then l else l ++ [k]

/-- Key set of a waiter registry after HashMap::remove (remove-if-present). -/
def removeId (k : Nat) (l : List Nat) : List Nat := l.filter (fun x => x ≠ k)

/-! ## Device state records (src/rmesh-core/src/state.rs) -/

structure User where
  id : String
  long_name : String
  short_name : String
  hw_model : Option String
deriving Repr, DecidableEq

structure NodeInfo where
  id : String
  num : Nat
  user : User
  last_heard : Option Nat
  snr : Option Nat
  rssi : Option Int
deriving Repr, DecidableEq

/-- meshtastic ChannelSettings, reduced to the fields the state store reads
    (name and psk); the record is otherwise carried opaquely. -/
structure ChannelSettings where
  name : String
  psk : List Nat
deriving Repr, DecidableEq

structure ChannelInfo where
  index : Nat
  name : String
  role : String
  has_psk : Bool
  settings : Option ChannelSettings
deriving Repr, DecidableEq

structure MyNodeInfo where
  node_num : Nat
  node_id : String
  reboot_count : Nat
  min_app_version : Nat
  device_id : String
deriving Repr, DecidableEq

structure Position where
  node_id : String
  node_num : Nat
  latitude : Int
  longitude : Int
  altitude : Option Int
  time : Option Nat
  last_updated : Nat
deriving Repr, DecidableEq

structure TextMessage where
  from_id : String
  from_node : Nat
  to_id : String
  to_node : Nat
  channel : Nat
  text : String
  time : Nat
  snr : Option Nat
  rssi : Option Int
  acknowledged : Bool
deriving Repr, DecidableEq

structure DeviceMetrics where
  battery_level : Option Nat
  voltage : Option Nat
  channel_utilization : Option Nat
  air_util_tx : Option Nat
  uptime_seconds : Option Nat
deriving Repr, DecidableEq

structure EnvironmentMetrics where
  temperature : Option Nat
  relative_humidity : Option Nat
  barometric_pressure : Option Nat
  gas_resistance : Option Nat
  iaq : Option Nat
  distance : Option Nat
  lux : Option Nat
  white_lux : Option Nat
  ir_lux : Option Nat
  uv_lux : Option Nat
  wind_direction : Option Nat
  wind_speed : Option Nat
  weight : Option Nat
deriving Repr, DecidableEq

structure AirQualityMetrics where
  pm10_standard : Option Nat
  pm25_standard : Option Nat
  pm100_standard : Option Nat
  pm10_environmental : Option Nat
  pm25_environmental : Option Nat
  pm100_environmental : Option Nat
  particles_03um : Option Nat
  particles_05um : Option Nat
  particles_10um : Option Nat
  particles_25um : Option Nat
  particles_50um : Option Nat
  particles_100um : Option Nat
deriving Repr, DecidableEq

structure TelemetryData where
  node_num : Nat
  time : Nat
  device_metrics : Option DeviceMetrics
  environment_metrics : Option EnvironmentMetrics
  air_quality_metrics : Option AirQualityMetrics
deriving Repr, DecidableEq

structure DeviceConfig where
  role : String
  button_gpio : Nat
  buzzer_gpio : Nat
  rebroadcast_mode : String
  node_info_broadcast_secs : Nat
  tzdef : Option String
  disable_triple_click : Bool
deriving Repr, DecidableEq

structure PositionConfig where
  position_broadcast_secs : Nat
  position_broadcast_smart_enabled : Bool
  fixed_position : Bool
  gps_enabled : Bool
  gps_mode : String
deriving Repr, DecidableEq

structure PowerConfig where
  is_power_saving : Bool
  on_battery_shutdown_after_secs : Nat
  adc_multiplier_override : Nat
  wait_bluetooth_secs : Nat
  sds_secs : Nat
  ls_secs : Nat
  min_wake_secs : Nat
deriving Repr, DecidableEq

structure NetworkConfig where
  wifi_enabled : Bool
  wifi_ssid : String
  wifi_psk : String
  ntp_server : String
  eth_enabled : Bool
  ipv4_config : Option String
deriving Repr, DecidableEq

structure DisplayConfig where
  screen_on_secs : Nat
  gps_format : String
  auto_screen_carousel_secs : Nat
  compass_north_top : Bool
  flip_screen : Bool
  units : String
  displaymode : String
  heading_bold : Bool
  wake_on_tap_or_motion : Bool
deriving Repr, DecidableEq

structure LoraConfig where
  use_preset : Bool
  modem_preset : String
  bandwidth : Nat
  spread_factor : Nat
  coding_rate : Nat
  frequency_offset : Nat
  region : String
  hop_limit : Nat
  tx_enabled : Bool
  tx_power : Int
  channel_num : Nat
  ignore_mqtt : Bool
deriving Repr, DecidableEq

structure BluetoothConfig where
  enabled : Bool
  mode : String
  fixed_pin : Nat
  device_logging_enabled : Bool
deriving Repr, DecidableEq

/-- DeviceState (state.rs lines 5-21); nodes, positions and telemetry are
    HashMaps keyed by node number, modelled as unique-key association lists.
    The unused config: HashMap<String, Value> field (written nowhere in the
    crate) is omitted. -/
structure DeviceState where
  nodes : List (Nat × NodeInfo)
  channels : List ChannelInfo
  my_node_info : Option MyNodeInfo
  positions : List (Nat × Position)
  messages : List TextMessage
  device_config : Option DeviceConfig
  position_config : Option PositionConfig
  power_config : Option PowerConfig
  network_config : Option NetworkConfig
  display_config : Option DisplayConfig
  lora_config : Option LoraConfig
  bluetooth_config : Option BluetoothConfig
  telemetry : List (Nat × TelemetryData)
deriving Repr, DecidableEq

def DeviceState.new : DeviceState :=
  { nodes := [], channels := [], my_node_info := none, positions := [],
    messages := [], device_config := none, position_config := none,
    power_config := none, network_config := none, display_config := none,
    lora_config := none, bluetooth_config := none, telemetry := [] }

def DeviceState.update_node (s : DeviceState) (node_num : Nat) (node_info : NodeInfo) :
    DeviceState :=
  { s with nodes := insertKey node_num node_info s.nodes }

def DeviceState.update_position (s : DeviceState) (node_num : Nat) (position : Position) :
    DeviceState :=
  { s with positions := insertKey node_num position s.positions }

def DeviceState.add_message (s : DeviceState) (message : TextMessage) : DeviceState :=
  { s with messages := s.messages ++ [message] }

/-- update_channel (state.rs lines 101-107): replace the first channel whose
    index matches, otherwise push at the end. -/
def update_channel_list (l : List ChannelInfo) (channel : ChannelInfo) : List ChannelInfo :=
  match l with
  | [] => [channel]
  | c :: rest =>
      if c.index = channel.index then channel :: rest
      else c :: update_channel_list rest channel

def DeviceState.update_channel (s : DeviceState) (channel : ChannelInfo) : DeviceState :=
  { s with channels := update_channel_list s.channels channel }

def DeviceState.set_my_node_info (s : DeviceState) (info : MyNodeInfo) : DeviceState :=
  { s with my_node_info := some info }

def DeviceState.update_telemetry (s : DeviceState) (node_num : Nat) (t : TelemetryData) :
    DeviceState :=
  { s with telemetry := insertKey node_num t s.telemetry }

/-! ## Decoded protobuf payloads (codec boundary)

Fields of enum type carry both the enum value where the code branches on it
and, where the code stores format-Debug output, the externally rendered name
string (the rendering itself lives in the external protobuf crate). -/

structure UserProto where
  id : String
  long_name : String
  short_name : String
  hw_model_name : String
deriving Repr, DecidableEq

/-- User::default() produced by unwrap_or_default: empty strings, and the
    zero-valued hardware-model enum whose Debug name the external crate
    renders; carried here as the rendered name of the default variant. -/
def UserProto.default : UserProto :=
  { id := "", long_name := "", short_name := "", hw_model_name := "Unset" }

structure NodeInfoProto where
  num : Nat
  user : Option UserProto
  last_heard : Nat
  snr : Nat
deriving Repr, DecidableEq

structure MyInfoProto where
  my_node_num : Nat
  reboot_count : Nat
  min_app_version : Nat
  device_id : List Nat
deriving Repr, DecidableEq

structure ChannelProto where
  index : Int
  settings : Option ChannelSettings
  role_name : String
deriving Repr, DecidableEq

structure PositionProto where
  latitude_i : Option Int
  longitude_i : Option Int
  altitude : Option Int
  time : Nat
deriving Repr, DecidableEq

structure DeviceMetricsProto where
  battery_level : Option Nat
  voltage : Option Nat
  channel_utilization : Option Nat
  air_util_tx : Option Nat
  uptime_seconds : Option Nat
deriving Repr, DecidableEq

structure EnvironmentMetricsProto where
  temperature : Option Nat
  relative_humidity : Option Nat
  barometric_pressure : Option Nat
  gas_resistance : Option Nat
  iaq : Option Nat
  distance : Option Nat
  lux : Option Nat
  white_lux : Option Nat
  ir_lux : Option Nat
  uv_lux : Option Nat
  wind_direction : Option Nat
  wind_speed : Option Nat
  weight : Option Nat
deriving Repr, DecidableEq

structure AirQualityMetricsProto where
  pm10_standard : Option Nat
  pm25_standard : Option Nat
  pm100_standard : Option Nat
  pm10_environmental : Option Nat
  pm25_environmental : Option Nat
  pm100_environmental : Option Nat
  particles_03um : Option Nat
  particles_05um : Option Nat
  particles_10um : Option Nat
  particles_25um : Option Nat
  particles_50um : Option Nat
  particles_100um : Option Nat
deriving Repr, DecidableEq

inductive TelemetryVariant where
  | deviceMetrics (m : DeviceMetricsProto)
  | environmentMetrics (m : EnvironmentMetricsProto)
  | airQualityMetrics (m : AirQualityMetricsProto)
  | otherTelemetry
deriving Repr, DecidableEq

structure TelemetryProto where
  time : Nat
  variant : Option TelemetryVariant
deriving Repr, DecidableEq

/-- Per-category config payloads as decoded from a GetConfigResponse.  Enum
    fields that the code only Debug-formats are carried as rendered names;
    the gps_mode enum, which the code also compares against Disabled, is
    carried as its numeric value (Disabled = 0) alongside the name. -/
structure DeviceConfigProto where
  role_name : String
  button_gpio : Nat
  buzzer_gpio : Nat
  rebroadcast_mode_name : String
  node_info_broadcast_secs : Nat
  tzdef : String
  disable_triple_click : Bool
deriving Repr, DecidableEq

structure PositionConfigProto where
  position_broadcast_secs : Nat
  position_broadcast_smart_enabled : Bool
  fixed_position : Bool
  gps_mode : Nat
  gps_mode_name : String
deriving Repr, DecidableEq

structure PowerConfigProto where
  is_power_saving : Bool
  on_battery_shutdown_after_secs : Nat
  adc_multiplier_override : Nat
  wait_bluetooth_secs : Nat
  sds_secs : Nat
  ls_secs : Nat
  min_wake_secs : Nat
deriving Repr, DecidableEq

structure NetworkConfigProto where
  wifi_enabled : Bool
  wifi_ssid : String
  wifi_psk : String
  ntp_server : String
  eth_enabled : Bool
  ipv4_config_dbg : Option String
deriving Repr, DecidableEq

structure DisplayConfigProto where
  screen_on_secs : Nat
  gps_format_name : String
  auto_screen_carousel_secs : Nat
  compass_north_top : Bool
  flip_screen : Bool
  units_name : String
  displaymode_name : String
  heading_bold : Bool
  wake_on_tap_or_motion : Bool
deriving Repr, DecidableEq

structure LoraConfigProto where
  use_preset : Bool
  modem_preset_name : String
  bandwidth : Nat
  spread_factor : Nat
  coding_rate : Nat
  frequency_offset : Nat
  region_name : String
  hop_limit : Nat
  tx_enabled : Bool
  tx_power : Int
  channel_num : Nat
  ignore_mqtt : Bool
deriving Repr, DecidableEq

structure BluetoothConfigProto where
  enabled : Bool
  mode_name : String
  fixed_pin : Nat
deriving Repr, DecidableEq

inductive ConfigPayload where
  | device (c : DeviceConfigProto)
  | position (c : PositionConfigProto)
  | power (c : PowerConfigProto)
  | network (c : NetworkConfigProto)
  | display (c : DisplayConfigProto)
  | lora (c : LoraConfigProto)
  | bluetooth (c : BluetoothConfigProto)
  | security
  | sessionkey
  | deviceUi
deriving Repr, DecidableEq

structure ConfigProto where
  payload_variant : Option ConfigPayload
deriving Repr, DecidableEq

inductive AdminPayload where
  | getConfigResponse (config : ConfigProto)
  | otherAdmin
deriving Repr, DecidableEq

structure AdminMessageProto where
  payload_variant : Option AdminPayload
deriving Repr, DecidableEq

structure RouteDiscovery where
  route : List Nat
  route_back : List Nat
  snr_back : List Nat
  snr_towards : List Nat
deriving Repr, DecidableEq

inductive RoutingVariant where
  | routeRequest (r : RouteDiscovery)
  | routeReply (r : RouteDiscovery)
  | errorReason (reason : Int)
deriving Repr, DecidableEq

structure Routing where
  variant : Option RoutingVariant
deriving Repr, DecidableEq

/-- A Data.payload byte vector, modelled at the codec boundary as what it
    decodes to; a port-specific decoder succeeds exactly when the bytes have
    the matching shape, and opaqueBytes stands for bytes none of them accepts. -/
inductive PayloadBytes where
  | routingBytes (r : Routing)
  | positionBytes (p : PositionProto)
  | telemetryBytes (t : TelemetryProto)
  | adminBytes (a : AdminMessageProto)
  | textBytes (s : String)
  | opaqueBytes
deriving Repr, DecidableEq

def decodeRouting : PayloadBytes → Option Routing
  | .routingBytes r => some r
  | _ => none

def decodePosition : PayloadBytes → Option PositionProto
  | .positionBytes p => some p
  | _ => none

def decodeTelemetry : PayloadBytes → Option TelemetryProto
  | .telemetryBytes t => some t
  | _ => none

def decodeAdmin : PayloadBytes → Option AdminMessageProto
  | .adminBytes a => some a
  | _ => none

/-- String::from_utf8_lossy: total on arbitrary bytes; on non-text bytes it
    yields some replacement-decorated string, modelled as "". -/
def lossyText : PayloadBytes → String
  | .textBytes s => s
  | _ => ""

inductive PortNum where
  | textMessageApp
  | positionApp
  | telemetryApp
  | adminApp
  | routingApp
  | tracerouteApp
  | unknownApp (n : Int)
deriving Repr, DecidableEq

structure MeshData where
  portnum : PortNum
  payload : PayloadBytes
  want_response : Bool
  dest : Nat
  source : Nat
  request_id : Nat
  reply_id : Nat
  emoji : Nat
deriving Repr, DecidableEq

inductive MPPayload where
  | decoded (d : MeshData)
  | encrypted
deriving Repr, DecidableEq

/-- MeshPacket; the Rust field named from is spelt fromNode (from is reserved
    in Lean), rx_snr is an f32 bit pattern. -/
structure MeshPacket where
  fromNode : Nat
  toNode : Nat
  id : Nat
  channel : Nat
  rx_time : Nat
  rx_snr : Nat
  want_ack : Bool
  rx_rssi : Int
  payload_variant : Option MPPayload
deriving Repr, DecidableEq

inductive FromRadioPayload where
  | myInfo (m : MyInfoProto)
  | nodeInfo (n : NodeInfoProto)
  | channel (c : ChannelProto)
  | packet (mp : MeshPacket)
  | otherVariant
deriving Repr, DecidableEq

structure FromRadio where
  payload_variant : Option FromRadioPayload
deriving Repr, DecidableEq

/-! ## Ingestion dispatch (manager.rs lines 368-814) -/

structure RouteHop where
  node_id : Nat
  node_name : String
  hop_number : Nat
  snr : Option Nat
  rssi : Option Int
deriving Repr, DecidableEq

/-- The two correlation registries; only the key sets are observable. -/
structure Registries where
  ackWaiters : List Nat
  routeWaiters : List Nat
deriving Repr, DecidableEq

/-- Result of processing one inbound envelope: the updated state and
    registries, plus the oneshot resolutions performed (ack sends carry the
    boolean handed to the ack waiter, route sends the hop list handed to the
    route waiter), each tagged with the request id whose entry was resolved. -/
structure ProcOut where
  state : DeviceState
  regs : Registries
  ackEvents : List (Nat × Bool)
  routeEvents : List (Nat × List RouteHop)
deriving Repr, DecidableEq

/-- Hop construction for a route reply (manager.rs lines 617-635): enumerate
    the route, looking each node number up in the nodes map for a display
    name, with an Unknown placeholder otherwise. -/
def buildHops (st : DeviceState) (route : List Nat) : List RouteHop :=
  route.enum.map (fun p =>
    { node_id := p.2,
      node_name :=
        match lookupKey p.2 st.nodes with
        | some n => n.user.long_name
        | none => "Unknown (" ++ hex8 p.2 ++ ")",
      hop_number := p.1,
      snr := none,
      rssi := none })

/-- TextMessage construction (manager.rs lines 470-484); now is the
    wall-clock receipt time in seconds. -/
def textMessageOf (now : Nat) (mp : MeshPacket) (d : MeshData) : TextMessage :=
  { from_id := hex8 mp.fromNode, from_node := mp.fromNode,
    to_id := hex8 mp.toNode, to_node := mp.toNode,
    channel := mp.channel, text := lossyText d.payload, time := now,
    snr := some mp.rx_snr, rssi := some mp.rx_rssi, acknowledged := false }

/-- Position construction (manager.rs lines 497-515): latitude and longitude
    carried as the source integers (the f64 division by 1e7 is injective on
    the i32 range), last_updated stamped with receipt wall-clock time. -/
def positionOf (now : Nat) (mp : MeshPacket) (lat lon : Int) (p : PositionProto) : Position :=
  { node_id := hex8 mp.fromNode, node_num := mp.fromNode,
    latitude := lat, longitude := lon, altitude := p.altitude,
    time := if p.time > 0 then some p.time else none,
    last_updated := now }

/-- TelemetryData construction (manager.rs lines 528-585). -/
def telemetryDataOf (mp : MeshPacket) (t : TelemetryProto) : TelemetryData :=
  let base : TelemetryData :=
    { node_num := mp.fromNode, time := t.time,
      device_metrics := none, environment_metrics := none,
      air_quality_metrics := none }
  match t.variant with
  | some (.deviceMetrics m) =>
      { base with device_metrics := some (
          { battery_level := m.battery_level, voltage := m.voltage,
            channel_utilization := m.channel_utilization,
            air_util_tx := m.air_util_tx, uptime_seconds := m.uptime_seconds }) }
  | some (.environmentMetrics m) =>
      { base with environment_metrics := some (
          { temperature := m.temperature, relative_humidity := m.relative_humidity,
            barometric_pressure := m.barometric_pressure,
            gas_resistance := m.gas_resistance, iaq := m.iaq,
            distance := m.distance, lux := m.lux, white_lux := m.white_lux,
            ir_lux := m.ir_lux, uv_lux := m.uv_lux,
            wind_direction := m.wind_direction, wind_speed := m.wind_speed,
            weight := m.weight }) }
  | some (.airQualityMetrics m) =>
      { base with air_quality_metrics := some (
          { pm10_standard := m.pm10_standard, pm25_standard := m.pm25_standard,
            pm100_standard := m.pm100_standard,
            pm10_environmental := m.pm10_environmental,
            pm25_environmental := m.pm25_environmental,
            pm100_environmental := m.pm100_environmental,
            particles_03um := m.particles_03um, particles_05um := m.particles_05um,
            particles_10um := m.particles_10um, particles_25um := m.particles_25um,
            particles_50um := m.particles_50um, particles_100um := m.particles_100um }) }
  | some .otherTelemetry => base
  | none => base

/-- process_config_response (manager.rs lines 695-814): dispatch the decoded
    config by category, replacing that category snapshot wholesale; security,
    sessionkey and deviceUi are received but not handled. -/
def process_config_response (config : ConfigProto) (st : DeviceState) : DeviceState :=
  match config.payload_variant with
  | none => st
  | some (.device c) =>
      { st with device_config := some (
          { role := c.role_name, button_gpio := c.button_gpio,
            buzzer_gpio := c.buzzer_gpio,
            rebroadcast_mode := c.rebroadcast_mode_name,
            node_info_broadcast_secs := c.node_info_broadcast_secs,
            tzdef := if c.tzdef = "" then none else some c.tzdef,
            disable_triple_click := c.disable_triple_click  }) }
  | some (.position c) =>
      { st with position_config := some (
          { position_broadcast_secs := c.position_broadcast_secs,
            position_broadcast_smart_enabled := c.position_broadcast_smart_enabled,
            fixed_position := c.fixed_position,
            gps_enabled := c.gps_mode ≠ 0,
            gps_mode := c.gps_mode_name  }) }
  | some (.power c) =>
      { st with power_config := some (
          { is_power_saving := c.is_power_saving,
            on_battery_shutdown_after_secs := c.on_battery_shutdown_after_secs,
            adc_multiplier_override := c.adc_multiplier_override,
            wait_bluetooth_secs := c.wait_bluetooth_secs,
            sds_secs := c.sds_secs, ls_secs := c.ls_secs,
            min_wake_secs := c.min_wake_secs  }) }
  | some (.network c) =>
      { st with network_config := some (
          { wifi_enabled := c.wifi_enabled, wifi_ssid := c.wifi_ssid,
            wifi_psk := c.wifi_psk, ntp_server := c.ntp_server,
            eth_enabled := c.eth_enabled, ipv4_config := c.ipv4_config_dbg  }) }
  | some (.display c) =>
      { st with display_config := some (
          { screen_on_secs := c.screen_on_secs, gps_format := c.gps_format_name,
            auto_screen_carousel_secs := c.auto_screen_carousel_secs,
            compass_north_top := c.compass_north_top,
            flip_screen := c.flip_screen, units := c.units_name,
            displaymode := c.displaymode_name, heading_bold := c.heading_bold,
            wake_on_tap_or_motion := c.wake_on_tap_or_motion  }) }
  | some (.lora c) =>
      { st with lora_config := some (
          { use_preset := c.use_preset, modem_preset := c.modem_preset_name,
            bandwidth := c.bandwidth, spread_factor := c.spread_factor,
            coding_rate := c.coding_rate, frequency_offset := c.frequency_offset,
            region := c.region_name, hop_limit := c.hop_limit,
            tx_enabled := c.tx_enabled, tx_power := c.tx_power,
            channel_num := c.channel_num, ignore_mqtt := c.ignore_mqtt  }) }
  | some (.bluetooth c) =>
      { st with bluetooth_config := some (
          { enabled := c.enabled, mode := c.mode_name,
            fixed_pin := c.fixed_pin, device_logging_enabled := false  }) }
  | some .security => st
  | some .sessionkey => st
  | some .deviceUi => st

/-- Routing-port handling (manager.rs lines 603-667): a decodable routing
    payload with a RouteReply or ErrorReason variant resolves a matching
    pending route waiter (with the enriched hop list or with an empty list),
    then, decodable or not, a non-zero request id resolving a pending ack
    waiter is sent true. -/
def routing_variant_stage (d : MeshData) (st : DeviceState) (regs : Registries) : ProcOut :=
  match decodeRouting d.payload with
  | some routing =>
      match routing.variant with
      | some (.routeReply route) =>
          if d.request_id ≠ 0 ∧ d.request_id ∈ regs.routeWaiters then
            { state := st,
              regs := { regs with routeWaiters := removeId d.request_id regs.routeWaiters },
              ackEvents := [],
              routeEvents := [(d.request_id, buildHops st route.route)] }
          else { state := st, regs := regs, ackEvents := [], routeEvents := [] }
      | some (.errorReason _) =>
          if d.request_id ≠ 0 ∧ d.request_id ∈ regs.routeWaiters then
            { state := st,
              regs := { regs with routeWaiters := removeId d.request_id regs.routeWaiters },
              ackEvents := [],
              routeEvents := [(d.request_id, [])] }
          else { state := st, regs := regs, ackEvents := [], routeEvents := [] }
      | some (.routeRequest _) =>
          { state := st, regs := regs, ackEvents := [], routeEvents := [] }
      | none => { state := st, regs := regs, ackEvents := [], routeEvents := [] }
  | none => { state := st, regs := regs, ackEvents := [], routeEvents := [] }

/-- The acknowledgement check shared by manager.rs lines 660-667 and lines
    683-689: when the request id is non-zero and has a pending ack waiter,
    remove the entry and send true to it. -/
def ack_check_stage (rid : Nat) (x : ProcOut) : ProcOut :=
  if rid ≠ 0 ∧ rid ∈ x.regs.ackWaiters then
    { x with
        regs := { x.regs with ackWaiters := removeId rid x.regs.ackWaiters },
        ackEvents := x.ackEvents ++ [(rid, true)] }
  else x

def routing_dispatch (mp : MeshPacket) (d : MeshData) (st : DeviceState)
    (regs : Registries) : ProcOut :=
  ack_check_stage d.request_id (routing_variant_stage d st regs)

/-- Port dispatch of a decoded mesh packet (manager.rs lines 465-673). -/
def port_dispatch (now : Nat) (mp : MeshPacket) (d : MeshData) (st : DeviceState)
    (regs : Registries) : ProcOut :=
  match d.portnum with
  | .textMessageApp =>
      { state := st.add_message (textMessageOf now mp d), regs := regs,
        ackEvents := [], routeEvents := [] }
  | .positionApp =>
      match decodePosition d.payload with
      | some p =>
          match p.latitude_i, p.longitude_i with
          | some lat, some lon =>
              { state := st.update_position mp.fromNode (positionOf now mp lat lon p),
                regs := regs, ackEvents := [], routeEvents := [] }
          | some _, none => { state := st, regs := regs, ackEvents := [], routeEvents := [] }
          | none, some _ => { state := st, regs := regs, ackEvents := [], routeEvents := [] }
          | none, none => { state := st, regs := regs, ackEvents := [], routeEvents := [] }
      | none => { state := st, regs := regs, ackEvents := [], routeEvents := [] }
  | .telemetryApp =>
      match decodeTelemetry d.payload with
      | some t =>
          { state := st.update_telemetry mp.fromNode (telemetryDataOf mp t),
            regs := regs, ackEvents := [], routeEvents := [] }
      | none => { state := st, regs := regs, ackEvents := [], routeEvents := [] }
  | .adminApp =>
      match decodeAdmin d.payload with
      | some a =>
          match a.payload_variant with
          | some (.getConfigResponse config) =>
              { state := process_config_response config st, regs := regs,
                ackEvents := [], routeEvents := [] }
          | some .otherAdmin => { state := st, regs := regs, ackEvents := [], routeEvents := [] }
          | none => { state := st, regs := regs, ackEvents := [], routeEvents := [] }
      | none => { state := st, regs := regs, ackEvents := [], routeEvents := [] }
  | .routingApp => routing_dispatch mp d st regs
  | .tracerouteApp => { state := st, regs := regs, ackEvents := [], routeEvents := [] }
  | .unknownApp _ => { state := st, regs := regs, ackEvents := [], routeEvents := [] }

/-- process_mesh_packet (manager.rs lines 446-693): skip empty or encrypted
    payloads, dispatch by port, then the trailing implicit-acknowledgement
    check (lines 676-690): only a packet with a non-zero id that does not
    itself want an ack, carrying a non-zero request id with a pending ack
    entry, resolves that entry with true. -/
def process_mesh_packet (now : Nat) (mp : MeshPacket) (st : DeviceState)
    (regs : Registries) : ProcOut :=
  match mp.payload_variant with
  | none => { state := st, regs := regs, ackEvents := [], routeEvents := [] }
  | some .encrypted => { state := st, regs := regs, ackEvents := [], routeEvents := [] }
  | some (.decoded packet_data) =>
      if mp.id ≠ 0 ∧ mp.want_ack then port_dispatch now mp packet_data st regs
      else if mp.id ≠ 0 then
        ack_check_stage packet_data.request_id (port_dispatch now mp packet_data st regs)
      else port_dispatch now mp packet_data st regs

/-- NodeInfo record built from a node-identity envelope
    (manager.rs lines 392-411). -/
def nodeInfoOfProto (n : NodeInfoProto) : NodeInfo :=
  let user := n.user.getD UserProto.default
  { id := hex8 n.num, num := n.num,
    user := { id := user.id, long_name := user.long_name,
              short_name := user.short_name,
              hw_model := some user.hw_model_name },
    last_heard := some n.last_heard, snr := some n.snr, rssi := some 0 }

/-- ChannelInfo record built from a channel envelope
    (manager.rs lines 414-431). -/
def channelInfoOfProto (c : ChannelProto) : ChannelInfo :=
  { index := u32OfI32 c.index,
    name :=
      match c.settings with
      | some s => s.name
      | none => "Channel " ++ toString c.index,
    role := c.role_name,
    has_psk :=
      match c.settings with
      | some s => !s.psk.isEmpty
      | none => false,
    settings := c.settings }

/-- MyNodeInfo record built from a MyInfo envelope
    (manager.rs lines 380-389). -/
def myNodeInfoOfProto (m : MyInfoProto) : MyNodeInfo :=
  { node_num := m.my_node_num, node_id := hex8 m.my_node_num,
    reboot_count := m.reboot_count, min_app_version := m.min_app_version,
    device_id := hexEncode m.device_id }

/-- process_from_radio_packet (manager.rs lines 368-444). -/
def process_from_radio_packet (now : Nat) (fr : FromRadio) (st : DeviceState)
    (regs : Registries) : ProcOut :=
  match fr.payload_variant with
  | none => { state := st, regs := regs, ackEvents := [], routeEvents := [] }
  | some (.myInfo m) =>
      { state := st.set_my_node_info (myNodeInfoOfProto m), regs := regs,
        ackEvents := [], routeEvents := [] }
  | some (.nodeInfo n) =>
      { state := st.update_node n.num (nodeInfoOfProto n), regs := regs,
        ackEvents := [], routeEvents := [] }
  | some (.channel c) =>
      { state := st.update_channel (channelInfoOfProto c), regs := regs,
        ackEvents := [], routeEvents := [] }
  | some (.packet mp) => process_mesh_packet now mp st regs
  | some .otherVariant => { state := st, regs := regs, ackEvents := [], routeEvents := [] }

/-- The ingestion loop (manager.rs lines 160-177) applied to a finite inbound
    sequence: fold of process_from_radio_packet over the stream. -/
def run_ingestion (now : Nat) : List FromRadio → DeviceState → Registries →
    DeviceState × Registries
  | [], st, regs => (st, regs)
  | fr :: rest, st, regs =>
      let r := process_from_radio_packet now fr st regs
      run_ingestion now rest r.state r.regs

/-! ## Caller-side correlation calls (manager.rs lines 219-365)

A call interleaves with the concurrent ingestion task, so its model takes an
environment describing the asynchronous outcomes: whether get_api finds a
connection, whether the transport send succeeds, and how the oneshot receive
ends (a value sent by the ingestion loop before the timeout, a dropped
sender, or timeout expiry first). -/

inductive AckRecvEnd where
  | valueSent (b : Bool)
  | closed
  | timedOut
deriving Repr, DecidableEq

inductive RouteRecvEnd where
  | valueSent (hops : List RouteHop)
  | closed
  | timedOut
deriving Repr, DecidableEq

inductive AckCallResult where
  | err
  | ok (b : Bool)
deriving Repr, DecidableEq

inductive RouteCallResult where
  | err
  | ok (hops : List RouteHop)
deriving Repr, DecidableEq

/-- send_text_with_ack (manager.rs lines 308-365), as its result together
    with the ack registry contents at the moment the call returns.  reg0 is
    the registry just before the call registers packet_id; regAtEnd is the
    registry at the moment the wait finishes (the ingestion loop may have
    mutated it during the wait; in the two error paths the call returns
    immediately after registering, so the registry is still the registered
    one).  Mirrored control flow: register the waiter, then get_api with the
    question-mark operator (an early error return performs no cleanup), then
    send_mesh_packet likewise, then the timed wait: timeout removes the entry
    and yields Ok(false); a received value v yields Ok(v); a dropped sender
    yields Ok(false) via unwrap_or(false). -/
def send_text_with_ack (packet_id : Nat) (reg0 : List Nat)
    (connected send_ok : Bool) (recv : AckRecvEnd) (regAtEnd : List Nat) :
    AckCallResult × List Nat :=
  let reg1 := insertId packet_id reg0
  if connected = false then (.err, reg1)
  else if send_ok = false then (.err, reg1)
  else
    match recv with
    | .timedOut => (.ok false, removeId packet_id regAtEnd)
    | .valueSent b => (.ok b, regAtEnd)
    | .closed => (.ok false, regAtEnd)

/-- send_traceroute (manager.rs lines 219-306), analogous to
    send_text_with_ack over the route registry: timeout removes the entry and
    yields Ok of an empty hop list; a received hop list is returned as is; a
    dropped sender yields Ok of an empty list via unwrap_or_else. -/
def send_traceroute (request_id : Nat) (reg0 : List Nat)
    (connected send_ok : Bool) (recv : RouteRecvEnd) (regAtEnd : List Nat) :
    RouteCallResult × List Nat :=
  let reg1 := insertId request_id reg0
  if connected = false then (.err, reg1)
  else if send_ok = false then (.err, reg1)
  else
    match recv with
    | .timedOut => (.ok [], removeId request_id regAtEnd)
    | .valueSent hops => (.ok hops, regAtEnd)
    | .closed => (.ok [], regAtEnd)

/-! ## ConnectionManager lifecycle fields (manager.rs lines 43-217) -/

/-- The manager fields relevant to connection state; the stream handles are
    carried as Unit tokens. -/
structure ConnectionManager where
  api : Option Unit
  packet_receiver : Option Unit
  packet_processor : Option Unit
  device_state : DeviceState
  regs : Registries
deriving Repr, DecidableEq

/-- ConnectionManager::new (lines 57-69): everything empty. -/
def ConnectionManager.new : ConnectionManager :=
  { api := none, packet_receiver := none, packet_processor := none,
    device_state := DeviceState.new, regs := { ackWaiters := [], routeWaiters := [] } }

/-- Field effect of a successful connect (lines 71-152): the configured API
    is stored and start_packet_processing spawns the ingestion task, moving
    the freshly obtained PacketReceiver into that task (line 148); no
    assignment to the packet_receiver field occurs anywhere in connect. -/
def ConnectionManager.connect_ok (cm : ConnectionManager) : ConnectionManager :=
  { cm with api := some (), packet_processor := some () }

/-- take_packet_receiver (lines 213-217): Option::take on the field; a none
    result is returned to the caller as the error "Packet receiver already
    taken or not connected". -/
def ConnectionManager.take_packet_receiver (cm : ConnectionManager) :
    Option Unit × ConnectionManager :=
  (cm.packet_receiver, { cm with packet_receiver := none })

/-! ## Config key lookup (src/rmesh-core/src/config.rs lines 7-147) -/

/-- Helper for splitChar: split a character list at every occurrence of c. -/
def splitCharAux (c : Char) : List Char → List (List Char)
  | [] => [[]]
  | ch :: rest =>
      let r := splitCharAux c rest
      if ch = c then [] :: r
      else
        match r with
        | [] => [[ch]]
        | hd :: tl => (ch :: hd) :: tl

/-- Rust str::split on a single separator character. -/
def splitChar (c : Char) (s : String) : List String :=
  (splitCharAux c s.data).map (fun l => String.mk l)

inductive ConfigValue where
  | nullV
  | strV (s : String)
  | natV (n : Nat)
  | intV (n : Int)
  | boolV (b : Bool)
  | optStrV (s : Option String)
deriving Repr, DecidableEq

/-- Result of get_config_value: an anyhow error carrying a message, or the
    value field of the returned json object. -/
inductive GetConfigResult where
  | err (msg : String)
  | ok (value : ConfigValue)
deriving Repr, DecidableEq

inductive ConfigType where
  | deviceConfig
  | positionConfig
  | powerConfig
  | networkConfig
  | displayConfig
  | loraConfig
  | bluetoothConfig
deriving Repr, DecidableEq

/-- Category dispatch of config.rs lines 31-40; an unknown category bails. -/
def configTypeOfCategory (category : String) : Option ConfigType :=
  if category = "device" then some .deviceConfig
  else if category = "position" then some .positionConfig
  else if category = "power" then some .powerConfig
  else if category = "network" then some .networkConfig
  else if category = "display" then some .displayConfig
  else if category = "lora" then some .loraConfig
  else if category = "bluetooth" then some .bluetoothConfig
  else none

/-- Field extraction for a cached device config (lines 89-98). -/
def deviceFieldValue (config : DeviceConfig) (field : String) : GetConfigResult :=
  if field = "role" then .ok (.strV config.role)
  else if field = "button_gpio" then .ok (.natV config.button_gpio)
  else if field = "buzzer_gpio" then .ok (.natV config.buzzer_gpio)
  else if field = "rebroadcast_mode" then .ok (.strV config.rebroadcast_mode)
  else if field = "node_info_broadcast_secs" then .ok (.natV config.node_info_broadcast_secs)
  else if field = "tzdef" then .ok (.optStrV config.tzdef)
  else if field = "disable_triple_click" then .ok (.boolV config.disable_triple_click)
  else .err ("Unknown device config field: " ++ field)

/-- Field extraction for a cached position config (lines 105-114). -/
def positionFieldValue (config : PositionConfig) (field : String) : GetConfigResult :=
  if field = "position_broadcast_secs" then .ok (.natV config.position_broadcast_secs)
  else if field = "position_broadcast_smart_enabled" then
    .ok (.boolV config.position_broadcast_smart_enabled)
  else if field = "fixed_position" then .ok (.boolV config.fixed_position)
  else if field = "gps_enabled" then .ok (.boolV config.gps_enabled)
  else if field = "gps_mode" then .ok (.strV config.gps_mode)
  else .err ("Unknown position config field: " ++ field)

/-- Field extraction for a cached lora config (lines 121-135). -/
def loraFieldValue (config : LoraConfig) (field : String) : GetConfigResult :=
  if field = "use_preset" then .ok (.boolV config.use_preset)
  else if field = "modem_preset" then .ok (.strV config.modem_preset)
  else if field = "bandwidth" then .ok (.natV config.bandwidth)
  else if field = "spread_factor" then .ok (.natV config.spread_factor)
  else if field = "coding_rate" then .ok (.natV config.coding_rate)
  else if field = "frequency_offset" then .ok (.natV config.frequency_offset)
  else if field = "region" then .ok (.strV config.region)
  else if field = "hop_limit" then .ok (.natV config.hop_limit)
  else if field = "tx_enabled" then .ok (.boolV config.tx_enabled)
  else if field = "tx_power" then .ok (.intV config.tx_power)
  else if field = "channel_num" then .ok (.natV config.channel_num)
  else if field = "ignore_mqtt" then .ok (.boolV config.ignore_mqtt)
  else .err ("Unknown lora config field: " ++ field)

/-- Value extraction of config.rs lines 86-141: only device, position and
    lora have extraction arms; every other known category falls into the
    default arm and yields null regardless of field or cache. -/
def extractConfigValue (st : DeviceState) (category field : String) : GetConfigResult :=
  if category = "device" then
    match st.device_config with
    | some config => deviceFieldValue config field
    | none => .ok .nullV
  else if category = "position" then
    match st.position_config with
    | some config => positionFieldValue config field
    | none => .ok .nullV
  else if category = "lora" then
    match st.lora_config with
    | some config => loraFieldValue config field
    | none => .ok .nullV
  else .ok .nullV

/-- get_config_value (config.rs lines 7-147): ensure a session key, split the
    key on dots and require exactly two parts, dispatch the category (unknown
    bails before any request is sent), send the admin request (get_api and
    the send both propagate errors), sleep, then read the cached snapshot st
    and extract the field.  session_ok, connected and send_ok describe the
    environment of the three fallible steps. -/
def get_config_value (st : DeviceState) (key : String)
    (session_ok connected send_ok : Bool) : GetConfigResult :=
  if session_ok = false then .err "session key" else
  match splitChar (Char.ofNat 46) key with
  | [category, field] =>
      match configTypeOfCategory category with
      | none => .err ("Unknown config category: " ++ category)
      | some _ =>
          if connected = false then .err "Not connected"
          else if send_ok = false then .err "send failed"
          else extractConfigValue st category field
  | _ => .err "Invalid config key format. Use format: category.field (e.g., lora.region)"

/-! ## Position request, cached-if-fresh phase (src/rmesh-core/src/position.rs
    lines 33-52) -/

inductive RequestPositionPhase where
  | cachedReturn (p : Position)
  | requestPath
deriving Repr, DecidableEq

/-- The first phase of request_position: look the node up in the positions
    cache; when present, compute the age as the wrapping u64 subtraction
    now - last_updated (release-mode semantics) and return the cached entry
    when the age is under 60 seconds, before any outbound request is sent;
    otherwise fall through to the send-then-poll path. -/
def request_position_check (positions : List (Nat × Position)) (node_num now : Nat) :
    RequestPositionPhase :=
  match lookupKey node_num positions with
  | some existing_pos =>
      if wrapSub64 now existing_pos.last_updated < 60 then .cachedReturn existing_pos
      else .requestPath
  | none => .requestPath

/-- Whether the first phase of request_position issues the outbound position
    request: exactly when the cached-return short-circuit is not taken. -/
def request_position_sends (positions : List (Nat × Position)) (node_num now : Nat) : Bool :=
  match request_position_check positions node_num now with
  | .cachedReturn _ => false
  | .requestPath => true

/-! ## Registry and map lemmas -/

theorem removeId_not_mem (k : Nat) (l : List Nat) : k ∉ removeId k l := by
  simp [removeId]

theorem removeId_eq_self_of_not_mem {k : Nat} {l : List Nat} (h : k ∉ l) :
    removeId k l = l := by
  unfold removeId
  apply List.filter_eq_self.mpr
  intro a ha
  simp only [ne_eq, decide_eq_true_eq]
  intro hak
  exact h (hak ▸ ha)

theorem removeId_insertId_of_not_mem {k : Nat} {l : List Nat} (h : k ∉ l) :
    removeId k (insertId k l) = l := by
  unfold insertId
  rw [if_neg h]
  unfold removeId
  rw [List.filter_append]
  have h1 : List.filter (fun x => x ≠ k) l = l := removeId_eq_self_of_not_mem h
  rw [h1]
  simp

theorem mem_insertId (k : Nat) (l : List Nat) : k ∈ insertId k l := by
  unfold insertId
  by_cases h : k ∈ l
  · rw [if_pos h]; exact h
  · rw [if_neg h]; simp

theorem lookupKey_insertKey {α : Type} (k k2 : Nat) (v : α) (m : List (Nat × α)) :
    lookupKey k2 (insertKey k v m) = if k = k2 then some v else lookupKey k2 m := by
  induction m with
  | nil => simp [insertKey, lookupKey]
  | cons hd tl ih =>
      obtain ⟨k3, v3⟩ := hd
      by_cases h3 : k3 = k
      · subst h3
        simp only [insertKey, if_pos rfl, lookupKey]
        by_cases h2 : k3 = k2
        · simp [h2]
        · simp [h2, lookupKey]
      · simp only [insertKey, if_neg h3, lookupKey]
        by_cases h2 : k3 = k2
        · subst h2
          have : ¬(k = k3) := fun h => h3 h.symm
          simp [this]
        · simp [h2, ih]

theorem lookupKey_isSome_iff {α : Type} (k : Nat) (m : List (Nat × α)) :
    (lookupKey k m).isSome ↔ k ∈ m.map Prod.fst := by
  induction m with
  | nil => simp [lookupKey]
  | cons hd tl ih =>
      obtain ⟨k2, v2⟩ := hd
      by_cases h : k2 = k
      · subst h; simp [lookupKey]
      · simp only [lookupKey, if_neg h, List.map_cons, List.mem_cons]
        rw [ih]
        constructor
        · exact fun hm => Or.inr hm
        · rintro (hm | hm)
          · exact absurd hm.symm h
          · exact hm

theorem keys_insertKey {α : Type} (k : Nat) (v : α) (m : List (Nat × α)) :
    (insertKey k v m).map Prod.fst =
      if k ∈ m.map Prod.fst then m.map Prod.fst else m.map Prod.fst ++ [k] := by
  induction m with
  | nil => simp [insertKey]
  | cons hd tl ih =>
      obtain ⟨k2, v2⟩ := hd
      by_cases h : k2 = k
      · subst h; simp [insertKey]
      · have hne : ¬(k = k2) := fun hh => h hh.symm
        simp only [insertKey, if_neg h, List.map_cons, List.mem_cons]
        rw [ih]
        by_cases hm : k ∈ tl.map Prod.fst
        · simp [hm, hne]
        · simp [hm, hne]

theorem nodup_keys_insertKey {α : Type} {k : Nat} {v : α} {m : List (Nat × α)}
    (h : (m.map Prod.fst).Nodup) : ((insertKey k v m).map Prod.fst).Nodup := by
  rw [keys_insertKey]
  by_cases hm : k ∈ m.map Prod.fst
  · simpa [hm] using h
  · rw [if_neg hm]
    simp only [List.nodup_append, List.nodup_cons, List.nodup_nil]
    refine ⟨h, by simp, ?_⟩
    intro a ha hak
    simp only [List.mem_singleton] at hak
    exact hm (hak ▸ ha)

theorem mem_keys_insertKey {α : Type} (k k2 : Nat) (v : α) (m : List (Nat × α)) :
    k2 ∈ (insertKey k v m).map Prod.fst ↔ k2 ∈ m.map Prod.fst ∨ k2 = k := by
  rw [keys_insertKey]
  by_cases hm : k ∈ m.map Prod.fst
  · rw [if_pos hm]
    constructor
    · exact fun h => Or.inl h
    · rintro (h | h)
      · exact h
      · exact h ▸ hm
  · rw [if_neg hm]; simp

/-! ## Claim C4 -/

/-- Claim C4: the claim asserts that after a successful connect the first
    take_packet_receiver call succeeds.  Evaluating the code at that input:
    connect stores the configured API and spawns the ingestion task but never
    assigns the packet_receiver field, so take_packet_receiver finds none and
    returns the error even though the manager is connected and the receiver
    was never taken. -/
theorem C4_take_after_connect_always_fails :
    (ConnectionManager.new.connect_ok.take_packet_receiver).1 = none ∧
    ConnectionManager.new.connect_ok.api = some () := by
  constructor <;> rfl

/-! ## Claim C5 -/

/-- Claim C5: if no matching reply ever arrives for a registered correlation
    id (the wait ends by timeout and the registry still holds exactly the
    registered entry), send_text_with_ack returns Ok false and send_traceroute
    returns Ok of an empty hop list — not an error — and the timeout arm
    itself removes the entry, returning the registry to its pre-call
    contents (hence its pre-call size).  The id-freshness hypothesis reflects
    that the caller registers a freshly generated id. -/
theorem C5_timeout_negative_outcome (X : Nat) (reg0 : List Nat) (hX : X ∉ reg0) :
    send_text_with_ack X reg0 true true .timedOut (insertId X reg0) = (.ok false, reg0) ∧
    send_traceroute X reg0 true true .timedOut (insertId X reg0) = (.ok [], reg0) := by
  unfold send_text_with_ack send_traceroute
  simp [removeId_insertId_of_not_mem hX]

/-- Witness for C5 at a concrete fresh id and non-empty registry. -/
theorem C5_timeout_negative_outcome_witness :
    (7 ∉ [3, 11]) ∧
    (send_text_with_ack 7 [3, 11] true true .timedOut (insertId 7 [3, 11]) =
        (.ok false, [3, 11]) ∧
     send_traceroute 7 [3, 11] true true .timedOut (insertId 7 [3, 11]) =
        (.ok [], [3, 11])) :=
  ⟨by decide, C5_timeout_negative_outcome 7 [3, 11] (by decide)⟩

/-! ## Wrapping-subtraction lemmas and claims C9, C10 -/

theorem wrapSub64_of_le {a b : Nat} (hba : b ≤ a) (ha : a < u64Mod) :
    wrapSub64 a b = a - b := by
  unfold wrapSub64
  have hb : b < u64Mod := lt_of_le_of_lt hba ha
  rw [Nat.mod_eq_of_lt hb]
  have h1 : u64Mod + a - b = u64Mod + (a - b) := by omega
  rw [h1, Nat.add_mod_left]
  exact Nat.mod_eq_of_lt (by omega)

theorem wrapSub64_of_gt {a b : Nat} (hab : a < b) (hb : b < u64Mod) :
    a + 1 ≤ wrapSub64 a b ∧ wrapSub64 a b = u64Mod - (b - a) := by
  unfold wrapSub64
  rw [Nat.mod_eq_of_lt hb]
  rw [Nat.mod_eq_of_lt (by omega)]
  omega

/-- Claim C9: when the cached position of the requested node is past-stamped
    and younger than 60 seconds, the first phase of request_position returns
    exactly that cached entry and sends no outbound request; and whenever the
    request-then-poll path is entered, the cache held no such fresh
    past-stamped entry for the node. -/
theorem C9_cached_if_fresh (positions : List (Nat × Position)) (node_num now : Nat)
    (p : Position) (hl : lookupKey node_num positions = some p) (hnow : now < u64Mod) :
    (p.last_updated ≤ now → now - p.last_updated < 60 →
        request_position_check positions node_num now = .cachedReturn p ∧
        request_position_sends positions node_num now = false) ∧
    (request_position_check positions node_num now = .requestPath →
        ¬(p.last_updated ≤ now ∧ now - p.last_updated < 60)) := by
  constructor
  · intro hle hfresh
    have hw : wrapSub64 now p.last_updated = now - p.last_updated :=
      wrapSub64_of_le hle hnow
    have hcheck : request_position_check positions node_num now = .cachedReturn p := by
      simp only [request_position_check, hl, hw]
      rw [if_pos hfresh]
    refine ⟨hcheck, ?_⟩
    unfold request_position_sends
    rw [hcheck]
  · intro hpath hfresh
    have hw : wrapSub64 now p.last_updated = now - p.last_updated :=
      wrapSub64_of_le hfresh.1 hnow
    simp only [request_position_check, hl, hw] at hpath
    rw [if_pos hfresh.2] at hpath
    exact absurd hpath (by simp)

/-- Concrete cached position used by the C9 witness. -/
def C9posW : Position :=
  { node_id := "00014041", node_num := 81985, latitude := 123456789,
    longitude := 987654321, altitude := none, time := none, last_updated := 1000 }

/-- Witness for C9: a position stamped 30 seconds ago is returned from cache
    and no request is sent. -/
theorem C9_cached_if_fresh_witness :
    (lookupKey 81985 [(81985, C9posW)] = some C9posW ∧ 1030 < u64Mod) ∧
    (C9posW.last_updated ≤ 1030 → 1030 - C9posW.last_updated < 60 →
      request_position_check [(81985, C9posW)] 81985 1030 = .cachedReturn C9posW ∧
      request_position_sends [(81985, C9posW)] 81985 1030 = false) :=
  ⟨⟨by decide, by decide⟩,
   (C9_cached_if_fresh [(81985, C9posW)] 81985 1030 C9posW (by decide) (by decide)).1⟩

/-- A cached position stamped at the largest u64 value, used to exercise the
    wrap-around corner of the freshness check. -/
def C10pos : Position :=
  { node_id := "00000001", node_num := 1, latitude := 0, longitude := 0,
    altitude := none, time := none, last_updated := 18446744073709551615 }

/-- Claim C10 counterexample: for the cached position stamped at 2^64 - 1 and
    current time 0 (so last_updated is strictly greater than the current
    time), the wrapping subtraction yields 1, not a value at least 60, and
    the short-circuit IS taken: the entry is treated as fresh. -/
theorem C10_counterexample :
    0 < C10pos.last_updated ∧
    wrapSub64 0 C10pos.last_updated = 1 ∧
    ¬(60 ≤ wrapSub64 0 C10pos.last_updated) ∧
    request_position_check [(1, C10pos)] 1 0 = .cachedReturn C10pos ∧
    request_position_sends [(1, C10pos)] 1 0 = false := by
  refine ⟨?_, ?_, ?_, ?_, ?_⟩ <;> decide

/-- Claim C10 amended: the subtraction does underflow for a future-stamped
    entry, and provided the current wall-clock time is at least 59 (true at
    every instant from 1970-01-01T00:00:59Z on), the wrapped result is at
    least now + 1, hence at least 60, so a future-stamped cache entry is
    never treated as fresh and the short-circuit is never taken for it. -/
theorem C10_amended (positions : List (Nat × Position)) (node_num now : Nat)
    (p : Position) (hl : lookupKey node_num positions = some p)
    (hfut : now < p.last_updated) (hb : p.last_updated < u64Mod) (hnow : 59 ≤ now) :
    60 ≤ wrapSub64 now p.last_updated ∧
    request_position_check positions node_num now = .requestPath ∧
    request_position_sends positions node_num now = true := by
  have h1 := (wrapSub64_of_gt hfut hb).1
  have h60 : 60 ≤ wrapSub64 now p.last_updated := by omega
  have hcheck : request_position_check positions node_num now = .requestPath := by
    simp only [request_position_check, hl]
    rw [if_neg (by omega)]
  refine ⟨h60, hcheck, ?_⟩
  unfold request_position_sends
  rw [hcheck]

/-- Concrete future-stamped cached position used by the amended C10 witness. -/
def C10posW : Position :=
  { node_id := "00000001", node_num := 1, latitude := 0, longitude := 0,
    altitude := none, time := none, last_updated := 100 }

/-- Witness for the amended C10: now = 59 and a position stamped at 100. -/
theorem C10_amended_witness :
    (lookupKey 1 [(1, C10posW)] = some C10posW ∧ 59 < C10posW.last_updated ∧
     C10posW.last_updated < u64Mod ∧ (59 : Nat) ≤ 59) ∧
    (60 ≤ wrapSub64 59 C10posW.last_updated ∧
     request_position_check [(1, C10posW)] 1 59 = .requestPath ∧
     request_position_sends [(1, C10posW)] 1 59 = true) :=
  ⟨⟨by decide, by decide, by decide, by decide⟩,
   C10_amended [(1, C10posW)] 1 59 C10posW (by decide) (by decide) (by decide) (by decide)⟩

/-! ## update_channel lemmas and claim C7 -/

theorem mem_indices_update_channel {l : List ChannelInfo} {c : ChannelInfo} {i : Nat} :
    i ∈ (update_channel_list l c).map ChannelInfo.index ↔
      i ∈ l.map ChannelInfo.index ∨ i = c.index := by
  induction l with
  | nil => simp [update_channel_list]
  | cons hd tl ih =>
      by_cases h : hd.index = c.index
      · simp only [update_channel_list, if_pos h, List.map_cons, List.mem_cons]
        constructor
        · rintro (h1 | h1)
          · exact Or.inr h1
          · exact Or.inl (Or.inr h1)
        · rintro ((h1 | h1) | h1)
          · exact Or.inl (h ▸ h1)
          · exact Or.inr h1
          · exact Or.inl h1
      · simp only [update_channel_list, if_neg h, List.map_cons, List.mem_cons]
        rw [ih]
        tauto

theorem nodup_indices_update_channel {l : List ChannelInfo} {c : ChannelInfo}
    (h : (l.map ChannelInfo.index).Nodup) :
    ((update_channel_list l c).map ChannelInfo.index).Nodup := by
  induction l with
  | nil => simp [update_channel_list]
  | cons hd tl ih =>
      rw [List.map_cons, List.nodup_cons] at h
      by_cases hc : hd.index = c.index
      · simp only [update_channel_list, if_pos hc, List.map_cons, List.nodup_cons]
        exact ⟨hc ▸ h.1, h.2⟩
      · simp only [update_channel_list, if_neg hc, List.map_cons, List.nodup_cons]
        refine ⟨?_, ih h.2⟩
        intro hmem
        rcases mem_indices_update_channel.mp hmem with h1 | h1
        · exact h.1 h1
        · exact hc h1

theorem filter_update_channel {l : List ChannelInfo} {c : ChannelInfo}
    (h : (l.map ChannelInfo.index).Nodup) :
    (update_channel_list l c).filter (fun x => x.index = c.index) = [c] := by
  induction l with
  | nil => simp [update_channel_list]
  | cons hd tl ih =>
      rw [List.map_cons, List.nodup_cons] at h
      by_cases hc : hd.index = c.index
      · simp only [update_channel_list, if_pos hc, List.filter_cons,
          decide_eq_true_eq, if_pos rfl]
        have htl : tl.filter (fun x => x.index = c.index) = [] := by
          rw [List.filter_eq_nil_iff]
          intro a ha
          simp only [decide_eq_true_eq]
          intro hax
          exact h.1 (hc ▸ hax ▸ (List.mem_map_of_mem ChannelInfo.index ha))
        simp [htl]
      · simp only [update_channel_list, if_neg hc, List.filter_cons,
          decide_eq_true_eq, if_neg hc]
        exact ih h.2

/-- Claim C7: starting from any device state whose channel indices are
    unique, applying update_channel twice at the same index with different
    contents leaves the indices unique and exactly one record at that index,
    holding the second content. -/
theorem C7_update_channel_idempotent (s : DeviceState) (c1 c2 : ChannelInfo)
    (hnd : (s.channels.map ChannelInfo.index).Nodup) (hidx : c1.index = c2.index) :
    ((((s.update_channel c1).update_channel c2).channels.map ChannelInfo.index).Nodup) ∧
    (((s.update_channel c1).update_channel c2).channels.filter
        (fun x => x.index = c2.index) = [c2]) := by
  have h1 : ((s.update_channel c1).channels.map ChannelInfo.index).Nodup := by
    unfold DeviceState.update_channel
    exact nodup_indices_update_channel hnd
  constructor
  · unfold DeviceState.update_channel
    exact nodup_indices_update_channel (by exact h1)
  · unfold DeviceState.update_channel
    exact filter_update_channel h1

/-- Concrete channels used by the C7 witness. -/
def C7ch0 : ChannelInfo :=
  { index := 0, name := "Primary", role := "PRIMARY", has_psk := false, settings := none }

def C7ch1a : ChannelInfo :=
  { index := 1, name := "alpha", role := "SECONDARY", has_psk := false, settings := none }

def C7ch1b : ChannelInfo :=
  { index := 1, name := "beta", role := "SECONDARY", has_psk := true, settings := none }

def C7state : DeviceState := { DeviceState.new with channels := [C7ch0] }

/-- Witness for C7: two different channel records at index 1 over a state
    holding one channel at index 0. -/
theorem C7_update_channel_idempotent_witness :
    ((C7state.channels.map ChannelInfo.index).Nodup ∧ C7ch1a.index = C7ch1b.index) ∧
    ((((C7state.update_channel C7ch1a).update_channel C7ch1b).channels.map
        ChannelInfo.index).Nodup ∧
     ((C7state.update_channel C7ch1a).update_channel C7ch1b).channels.filter
        (fun x => x.index = C7ch1b.index) = [C7ch1b]) :=
  ⟨⟨by decide, by decide⟩,
   C7_update_channel_idempotent C7state C7ch1a C7ch1b (by decide) (by decide)⟩

/-! ## get_config_value lemmas and claim C8 -/

theorem get_config_value_known_category (st : DeviceState) (key category field : String)
    (hsplit : splitChar (Char.ofNat 46) key = [category, field])
    (t : ConfigType) (htype : configTypeOfCategory category = some t) :
    get_config_value st key true true true = extractConfigValue st category field := by
  unfold get_config_value
  simp only [hsplit, htype]
  simp

theorem get_config_value_unknown_category (st : DeviceState) (key category field : String)
    (hsplit : splitChar (Char.ofNat 46) key = [category, field])
    (htype : configTypeOfCategory category = none) :
    get_config_value st key true true true =
      .err ("Unknown config category: " ++ category) := by
  unfold get_config_value
  simp only [hsplit, htype]
  simp

theorem deviceFieldValue_unknown (c : DeviceConfig) (field : String)
    (h : field ∉ ["role", "button_gpio", "buzzer_gpio", "rebroadcast_mode",
        "node_info_broadcast_secs", "tzdef", "disable_triple_click"]) :
    deviceFieldValue c field = .err ("Unknown device config field: " ++ field) := by
  simp only [List.mem_cons, List.not_mem_nil, or_false, not_or] at h
  obtain ⟨h1, h2, h3, h4, h5, h6, h7⟩ := h
  unfold deviceFieldValue
  rw [if_neg h1, if_neg h2, if_neg h3, if_neg h4, if_neg h5, if_neg h6, if_neg h7]

theorem positionFieldValue_unknown (c : PositionConfig) (field : String)
    (h : field ∉ ["position_broadcast_secs", "position_broadcast_smart_enabled",
        "fixed_position", "gps_enabled", "gps_mode"]) :
    positionFieldValue c field = .err ("Unknown position config field: " ++ field) := by
  simp only [List.mem_cons, List.not_mem_nil, or_false, not_or] at h
  obtain ⟨h1, h2, h3, h4, h5⟩ := h
  unfold positionFieldValue
  rw [if_neg h1, if_neg h2, if_neg h3, if_neg h4, if_neg h5]

theorem loraFieldValue_unknown (c : LoraConfig) (field : String)
    (h : field ∉ ["use_preset", "modem_preset", "bandwidth", "spread_factor",
        "coding_rate", "frequency_offset", "region", "hop_limit", "tx_enabled",
        "tx_power", "channel_num", "ignore_mqtt"]) :
    loraFieldValue c field = .err ("Unknown lora config field: " ++ field) := by
  simp only [List.mem_cons, List.not_mem_nil, or_false, not_or] at h
  obtain ⟨h1, h2, h3, h4, h5, h6, h7, h8, h9, h10, h11, h12⟩ := h
  unfold loraFieldValue
  rw [if_neg h1, if_neg h2, if_neg h3, if_neg h4, if_neg h5, if_neg h6, if_neg h7,
    if_neg h8, if_neg h9, if_neg h10, if_neg h11, if_neg h12]

/-- Claim C8 counterexample: both a known-category key with an unknown field
    (power.bogus — the power category has no extraction arm at all) and a
    device-category key with an unknown field while no device snapshot is
    cached (device.bogus over the empty state) return the null value, not the
    error the claim requires for every unknown field. -/
theorem C8_counterexample :
    get_config_value DeviceState.new "power.bogus" true true true = .ok .nullV ∧
    get_config_value DeviceState.new "device.bogus" true true true = .ok .nullV := by
  constructor <;> decide

/-- Claim C8 amended: an unknown category always yields an error, returned
    before any request is sent.  For the three categories with extraction
    arms (device, position, lora): with no cached snapshot every field —
    known or unknown — yields the null value; with a cached snapshot the
    lookup yields the field extraction, which errors exactly on the fields
    outside the known set.  For power, network, display and bluetooth every
    field yields null regardless of the cache.  The null and error outcomes
    remain distinct constructors. -/
theorem C8_amended (st : DeviceState) (key category field : String)
    (hsplit : splitChar (Char.ofNat 46) key = [category, field]) :
    (configTypeOfCategory category = none →
        get_config_value st key true true true =
          .err ("Unknown config category: " ++ category)) ∧
    ((category = "power" ∨ category = "network" ∨ category = "display" ∨
        category = "bluetooth") →
        get_config_value st key true true true = .ok .nullV) ∧
    (category = "device" → st.device_config = none →
        get_config_value st key true true true = .ok .nullV) ∧
    (category = "position" → st.position_config = none →
        get_config_value st key true true true = .ok .nullV) ∧
    (category = "lora" → st.lora_config = none →
        get_config_value st key true true true = .ok .nullV) ∧
    (∀ c, category = "device" → st.device_config = some c →
        get_config_value st key true true true = deviceFieldValue c field ∧
        (field ∉ ["role", "button_gpio", "buzzer_gpio", "rebroadcast_mode",
            "node_info_broadcast_secs", "tzdef", "disable_triple_click"] →
          deviceFieldValue c field =
            .err ("Unknown device config field: " ++ field))) ∧
    (∀ c, category = "position" → st.position_config = some c →
        get_config_value st key true true true = positionFieldValue c field ∧
        (field ∉ ["position_broadcast_secs", "position_broadcast_smart_enabled",
            "fixed_position", "gps_enabled", "gps_mode"] →
          positionFieldValue c field =
            .err ("Unknown position config field: " ++ field))) ∧
    (∀ c, category = "lora" → st.lora_config = some c →
        get_config_value st key true true true = loraFieldValue c field ∧
        (field ∉ ["use_preset", "modem_preset", "bandwidth", "spread_factor",
            "coding_rate", "frequency_offset", "region", "hop_limit", "tx_enabled",
            "tx_power", "channel_num", "ignore_mqtt"] →
          loraFieldValue c field =
            .err ("Unknown lora config field: " ++ field))) ∧
    (∀ v msg, (GetConfigResult.ok v) ≠ .err msg) := by
  refine ⟨?_, ?_, ?_, ?_, ?_, ?_, ?_, ?_, ?_⟩
  · intro htype
    exact get_config_value_unknown_category st key category field hsplit htype
  · rintro (hc | hc | hc | hc) <;> subst hc <;>
      rw [get_config_value_known_category st key _ field hsplit _ rfl] <;>
      simp [extractConfigValue]
  · intro hc hnone
    subst hc
    rw [get_config_value_known_category st key _ field hsplit _ rfl]
    simp [extractConfigValue, hnone]
  · intro hc hnone
    subst hc
    rw [get_config_value_known_category st key _ field hsplit _ rfl]
    simp [extractConfigValue, hnone]
  · intro hc hnone
    subst hc
    rw [get_config_value_known_category st key _ field hsplit _ rfl]
    simp [extractConfigValue, hnone]
  · intro c hc hsome
    subst hc
    rw [get_config_value_known_category st key _ field hsplit _ rfl]
    exact ⟨by simp [extractConfigValue, hsome], deviceFieldValue_unknown c field⟩
  · intro c hc hsome
    subst hc
    rw [get_config_value_known_category st key _ field hsplit _ rfl]
    exact ⟨by simp [extractConfigValue, hsome], positionFieldValue_unknown c field⟩
  · intro c hc hsome
    subst hc
    rw [get_config_value_known_category st key _ field hsplit _ rfl]
    exact ⟨by simp [extractConfigValue, hsome], loraFieldValue_unknown c field⟩
  · intro v msg h
    exact GetConfigResult.noConfusion h

/-- A concrete cached lora config snapshot for the C8 witness. -/
def C8loraW : LoraConfig :=
  { use_preset := true, modem_preset := "LongFast", bandwidth := 250,
    spread_factor := 11, coding_rate := 5, frequency_offset := 0,
    region := "Us", hop_limit := 3, tx_enabled := true, tx_power := 30,
    channel_num := 20, ignore_mqtt := false }

/-- Witness for the amended C8 at key lora.region over a state with a cached
    lora snapshot: the known field yields its value and the unknown-category
    arm is exercised vacuously. -/
theorem C8_amended_witness :
    (splitChar (Char.ofNat 46) "lora.region" = ["lora", "region"]) ∧
    (∀ c, "lora" = "lora" → ({ DeviceState.new with lora_config := some C8loraW
        } : DeviceState).lora_config = some c →
      get_config_value { DeviceState.new with lora_config := some C8loraW }
          "lora.region" true true true = loraFieldValue c "region" ∧
      ("region" ∉ ["use_preset", "modem_preset", "bandwidth", "spread_factor",
          "coding_rate", "frequency_offset", "region", "hop_limit", "tx_enabled",
          "tx_power", "channel_num", "ignore_mqtt"] →
        loraFieldValue c "region" =
          .err ("Unknown lora config field: " ++ "region"))) :=
  ⟨by decide,
   (C8_amended { DeviceState.new with lora_config := some C8loraW }
      "lora.region" "lora" "region" (by decide)).2.2.2.2.2.2.2.1⟩

/-! ## Ingestion-dispatch characterization lemmas (for C1, C2, C3) -/

theorem routing_variant_stage_ack (d : MeshData) (st : DeviceState) (regs : Registries) :
    (routing_variant_stage d st regs).regs.ackWaiters = regs.ackWaiters ∧
    (routing_variant_stage d st regs).ackEvents = [] := by
  unfold routing_variant_stage
  cases d.payload with
  | routingBytes r =>
      obtain ⟨v⟩ := r
      cases v with
      | none => simp [decodeRouting]
      | some rv =>
          cases rv with
          | routeRequest r2 => simp [decodeRouting]
          | routeReply r2 =>
              simp only [decodeRouting]
              split <;> simp
          | errorReason reason =>
              simp only [decodeRouting]
              split <;> simp
  | positionBytes p => simp [decodeRouting]
  | telemetryBytes t => simp [decodeRouting]
  | adminBytes a => simp [decodeRouting]
  | textBytes s => simp [decodeRouting]
  | opaqueBytes => simp [decodeRouting]

theorem ack_check_stage_char (rid : Nat) (x : ProcOut) :
    (ack_check_stage rid x).regs.ackWaiters =
      (if rid ≠ 0 ∧ rid ∈ x.regs.ackWaiters then removeId rid x.regs.ackWaiters
       else x.regs.ackWaiters) ∧
    (ack_check_stage rid x).ackEvents =
      (if rid ≠ 0 ∧ rid ∈ x.regs.ackWaiters then x.ackEvents ++ [(rid, true)]
       else x.ackEvents) ∧
    (ack_check_stage rid x).regs.routeWaiters = x.regs.routeWaiters ∧
    (ack_check_stage rid x).routeEvents = x.routeEvents ∧
    (ack_check_stage rid x).state = x.state := by
  unfold ack_check_stage
  split <;> simp_all

theorem routing_dispatch_ack_char (mp : MeshPacket) (d : MeshData) (st : DeviceState)
    (regs : Registries) :
    (routing_dispatch mp d st regs).regs.ackWaiters =
      (if d.request_id ≠ 0 ∧ d.request_id ∈ regs.ackWaiters then
        removeId d.request_id regs.ackWaiters
       else regs.ackWaiters) ∧
    (routing_dispatch mp d st regs).ackEvents =
      (if d.request_id ≠ 0 ∧ d.request_id ∈ regs.ackWaiters then [(d.request_id, true)]
       else []) := by
  obtain ⟨ha, he⟩ := routing_variant_stage_ack d st regs
  obtain ⟨h1, h2, h3, h4, h5⟩ := ack_check_stage_char d.request_id (routing_variant_stage d st regs)
  unfold routing_dispatch
  rw [h1, h2, ha, he]
  simp

theorem port_dispatch_nonrouting (now : Nat) (mp : MeshPacket) (d : MeshData)
    (st : DeviceState) (regs : Registries) (h : d.portnum ≠ .routingApp) :
    (port_dispatch now mp d st regs).regs = regs ∧
    (port_dispatch now mp d st regs).ackEvents = [] ∧
    (port_dispatch now mp d st regs).routeEvents = [] := by
  cases hp : d.portnum with
  | routingApp => exact absurd hp h
  | textMessageApp => simp [port_dispatch, hp]
  | positionApp =>
      simp only [port_dispatch, hp]
      repeat' split
      all_goals simp
  | telemetryApp =>
      simp only [port_dispatch, hp]
      repeat' split
      all_goals simp
  | adminApp =>
      simp only [port_dispatch, hp]
      repeat' split
      all_goals simp
  | tracerouteApp => simp [port_dispatch, hp]
  | unknownApp n => simp [port_dispatch, hp]

theorem port_dispatch_routing (now : Nat) (mp : MeshPacket) (d : MeshData)
    (st : DeviceState) (regs : Registries) (h : d.portnum = .routingApp) :
    port_dispatch now mp d st regs = routing_dispatch mp d st regs := by
  simp only [port_dispatch, h]

/-- The complete effect of processing one decoded mesh packet on the ack
    registry and its waiters: the pending entry for the embedded request id
    is removed and sent true exactly when the id is non-zero and either the
    packet is routing-category, or the packet id is non-zero and the packet
    does not itself request an ack; in every other case the ack registry is
    untouched and no ack waiter is resolved. -/
theorem process_mesh_packet_ack_char (now : Nat) (mp : MeshPacket) (d : MeshData)
    (st : DeviceState) (regs : Registries)
    (hpv : mp.payload_variant = some (.decoded d)) :
    (process_mesh_packet now mp st regs).regs.ackWaiters =
      (if d.request_id ≠ 0 ∧ d.request_id ∈ regs.ackWaiters ∧
          (d.portnum = .routingApp ∨ (mp.id ≠ 0 ∧ mp.want_ack = false)) then
        removeId d.request_id regs.ackWaiters
       else regs.ackWaiters) ∧
    (process_mesh_packet now mp st regs).ackEvents =
      (if d.request_id ≠ 0 ∧ d.request_id ∈ regs.ackWaiters ∧
          (d.portnum = .routingApp ∨ (mp.id ≠ 0 ∧ mp.want_ack = false)) then
        [(d.request_id, true)]
       else []) := by
  unfold process_mesh_packet
  simp only [hpv]
  by_cases hroute : d.portnum = .routingApp
  · rw [port_dispatch_routing now mp d st regs hroute]
    obtain ⟨ha, he⟩ := routing_dispatch_ack_char mp d st regs
    have hCiff : (d.request_id ≠ 0 ∧ d.request_id ∈ regs.ackWaiters ∧
        (d.portnum = .routingApp ∨ (mp.id ≠ 0 ∧ mp.want_ack = false))) ↔
        (d.request_id ≠ 0 ∧ d.request_id ∈ regs.ackWaiters) := by
      constructor
      · exact fun hh => ⟨hh.1, hh.2.1⟩
      · exact fun hh => ⟨hh.1, hh.2, Or.inl hroute⟩
    simp only [hCiff]
    by_cases h1 : mp.id ≠ 0 ∧ mp.want_ack
    · rw [if_pos h1]
      exact ⟨ha, he⟩
    · rw [if_neg h1]
      by_cases h2 : mp.id ≠ 0
      · rw [if_pos h2]
        obtain ⟨k1, k2, k3, k4, k5⟩ :=
          ack_check_stage_char d.request_id (routing_dispatch mp d st regs)
        rw [k1, k2, ha, he]
        by_cases hc : d.request_id ≠ 0 ∧ d.request_id ∈ regs.ackWaiters
        · have hnotin : ¬(d.request_id ≠ 0 ∧
              d.request_id ∈ removeId d.request_id regs.ackWaiters) := by
            intro hbad
            exact removeId_not_mem _ _ hbad.2
          simp only [if_pos hc, if_neg hnotin]
          constructor <;> trivial
        · simp only [if_neg hc]
          constructor <;> trivial
      · rw [if_neg h2]
        exact ⟨ha, he⟩
  · obtain ⟨pa, pe, pr⟩ := port_dispatch_nonrouting now mp d st regs hroute
    by_cases h1 : mp.id ≠ 0 ∧ mp.want_ack
    · have hC : ¬(d.request_id ≠ 0 ∧ d.request_id ∈ regs.ackWaiters ∧
          (d.portnum = .routingApp ∨ (mp.id ≠ 0 ∧ mp.want_ack = false))) := by
        intro hcc
        rcases hcc.2.2 with hcc2 | hcc2
        · exact hroute hcc2
        · rw [h1.2] at hcc2
          exact Bool.noConfusion hcc2.2
      rw [if_pos h1, pa, pe]
      simp only [if_neg hC]
      constructor <;> trivial
    · rw [if_neg h1]
      by_cases h2 : mp.id ≠ 0
      · rw [if_pos h2]
        obtain ⟨k1, k2, k3, k4, k5⟩ :=
          ack_check_stage_char d.request_id (port_dispatch now mp d st regs)
        rw [k1, k2, pa, pe]
        have hwa : mp.want_ack = false := by
          cases hw : mp.want_ack
          · rfl
          · exact absurd ⟨h2, hw⟩ h1
        have hCiff : (d.request_id ≠ 0 ∧ d.request_id ∈ regs.ackWaiters ∧
            (d.portnum = .routingApp ∨ (mp.id ≠ 0 ∧ mp.want_ack = false))) ↔
            (d.request_id ≠ 0 ∧ d.request_id ∈ regs.ackWaiters) := by
          constructor
          · exact fun hh => ⟨hh.1, hh.2.1⟩
          · exact fun hh => ⟨hh.1, hh.2, Or.inr ⟨h2, hwa⟩⟩
        simp only [hCiff]
        refine ⟨by trivial, ?_⟩
        by_cases hc : d.request_id ≠ 0 ∧ d.request_id ∈ regs.ackWaiters
        · simp only [if_pos hc, List.nil_append]
        · simp only [if_neg hc]
      · have hC : ¬(d.request_id ≠ 0 ∧ d.request_id ∈ regs.ackWaiters ∧
            (d.portnum = .routingApp ∨ (mp.id ≠ 0 ∧ mp.want_ack = false))) := by
          intro hcc
          rcases hcc.2.2 with hcc2 | hcc2
          · exact hroute hcc2
          · exact h2 hcc2.1
        rw [if_neg h2, pa, pe]
        simp only [if_neg hC]
        constructor <;> trivial

theorem routing_variant_stage_routeReply (d : MeshData) (st : DeviceState)
    (regs : Registries) (route : RouteDiscovery)
    (hp : d.payload = .routingBytes { variant := some (.routeReply route) }) :
    routing_variant_stage d st regs =
      (if d.request_id ≠ 0 ∧ d.request_id ∈ regs.routeWaiters then
        { state := st,
          regs := { regs with routeWaiters := removeId d.request_id regs.routeWaiters },
          ackEvents := [],
          routeEvents := [(d.request_id, buildHops st route.route)] }
       else { state := st, regs := regs, ackEvents := [], routeEvents := [] }) := by
  unfold routing_variant_stage
  rw [hp]
  simp [decodeRouting]

/-- Route-registry effect of processing a routing-category route-reply
    envelope: the pending route entry for the embedded request id is removed
    and handed the enriched hop list exactly when the id is non-zero and
    pending; otherwise the route registry is untouched and no route waiter
    is resolved. -/
theorem process_mesh_packet_route_char (now : Nat) (mp : MeshPacket) (d : MeshData)
    (st : DeviceState) (regs : Registries) (route : RouteDiscovery)
    (hpv : mp.payload_variant = some (.decoded d))
    (hport : d.portnum = .routingApp)
    (hp : d.payload = .routingBytes { variant := some (.routeReply route) }) :
    (process_mesh_packet now mp st regs).regs.routeWaiters =
      (if d.request_id ≠ 0 ∧ d.request_id ∈ regs.routeWaiters then
        removeId d.request_id regs.routeWaiters
       else regs.routeWaiters) ∧
    (process_mesh_packet now mp st regs).routeEvents =
      (if d.request_id ≠ 0 ∧ d.request_id ∈ regs.routeWaiters then
        [(d.request_id, buildHops st route.route)]
       else []) := by
  have hRV := routing_variant_stage_routeReply d st regs route hp
  obtain ⟨q1, q2, q3, q4, q5⟩ :=
    ack_check_stage_char d.request_id (routing_variant_stage d st regs)
  have hrd3 : (routing_dispatch mp d st regs).regs.routeWaiters =
      (routing_variant_stage d st regs).regs.routeWaiters := q3
  have hrd4 : (routing_dispatch mp d st regs).routeEvents =
      (routing_variant_stage d st regs).routeEvents := q4
  obtain ⟨w1, w2, w3, w4, w5⟩ :=
    ack_check_stage_char d.request_id (routing_dispatch mp d st regs)
  unfold process_mesh_packet
  simp only [hpv]
  rw [port_dispatch_routing now mp d st regs hport]
  by_cases h1 : mp.id ≠ 0 ∧ mp.want_ack
  · rw [if_pos h1, hrd3, hrd4, hRV]
    by_cases hc : d.request_id ≠ 0 ∧ d.request_id ∈ regs.routeWaiters
    · simp only [if_pos hc]
      constructor <;> trivial
    · simp only [if_neg hc]
      constructor <;> trivial
  · rw [if_neg h1]
    by_cases h2 : mp.id ≠ 0
    · rw [if_pos h2, w3, w4, hrd3, hrd4, hRV]
      by_cases hc : d.request_id ≠ 0 ∧ d.request_id ∈ regs.routeWaiters
      · simp only [if_pos hc]
        constructor <;> trivial
      · simp only [if_neg hc]
        constructor <;> trivial
    · rw [if_neg h2, hrd3, hrd4, hRV]
      by_cases hc : d.request_id ≠ 0 ∧ d.request_id ∈ regs.routeWaiters
      · simp only [if_pos hc]
        constructor <;> trivial
      · simp only [if_neg hc]
        constructor <;> trivial

/-! ## Claims C1, C2, C3 -/

/-- A routing-category envelope carrying an error-reason payload with request
    id 5, processed while 5 has a pending ack waiter. -/
def C1data : MeshData :=
  { portnum := .routingApp,
    payload := .routingBytes { variant := some (.errorReason 3) },
    want_response := false, dest := 0, source := 0, request_id := 5,
    reply_id := 0, emoji := 0 }

def C1packet : MeshPacket :=
  { fromNode := 287454020, toNode := 4294967295, id := 777, channel := 0,
    rx_time := 0, rx_snr := 0, want_ack := false, rx_rssi := 0,
    payload_variant := some (.decoded C1data) }

def C1run : ProcOut :=
  process_mesh_packet 1000 C1packet DeviceState.new
    { ackWaiters := [5], routeWaiters := [] }

/-- Claim C1 counterexample: processing a routing-category error-reason
    envelope whose request id matches the pending ack entry 5 resolves that
    waiter with TRUE (the registry indeed no longer contains 5), so the
    awaiting send_text_with_ack call returns Ok true, not the Ok false the
    claim requires. -/
theorem C1_counterexample :
    C1run.ackEvents = [(5, true)] ∧
    (5 ∉ C1run.regs.ackWaiters) ∧
    send_text_with_ack 5 [] true true (.valueSent true) C1run.regs.ackWaiters =
      (.ok true, C1run.regs.ackWaiters) ∧
    (AckCallResult.ok true ≠ .ok false) := by
  refine ⟨?_, ?_, ?_, ?_⟩ <;> decide

/-- Claim C1 amended: for every routing-category envelope whose payload is an
    error-reason reply and whose embedded request id X is non-zero and has a
    pending ack entry, the ingestion loop resolves that entry with TRUE
    (treating the error reply as an acknowledgement), the entry is removed
    from the ack registry, and the awaiting send_text_with_ack call therefore
    returns Ok true before its timeout. -/
theorem C1_amended (now : Nat) (mp : MeshPacket) (d : MeshData) (st : DeviceState)
    (regs : Registries) (X : Nat) (reason : Int) (reg0 regAtEnd : List Nat)
    (hpv : mp.payload_variant = some (.decoded d))
    (hport : d.portnum = .routingApp)
    (hpayload : d.payload = .routingBytes { variant := some (.errorReason reason) })
    (hrid : d.request_id = X) (hX : X ≠ 0) (hmem : X ∈ regs.ackWaiters) :
    (process_mesh_packet now mp st regs).ackEvents = [(X, true)] ∧
    X ∉ (process_mesh_packet now mp st regs).regs.ackWaiters ∧
    send_text_with_ack X reg0 true true (.valueSent true) regAtEnd =
      (.ok true, regAtEnd) := by
  subst hrid
  obtain ⟨ha, he⟩ := process_mesh_packet_ack_char now mp d st regs hpv
  have hcond : d.request_id ≠ 0 ∧ d.request_id ∈ regs.ackWaiters ∧
      (d.portnum = .routingApp ∨ (mp.id ≠ 0 ∧ mp.want_ack = false)) :=
    ⟨hX, hmem, Or.inl hport⟩
  refine ⟨?_, ?_, rfl⟩
  · rw [he, if_pos hcond]
  · rw [ha, if_pos hcond]
    exact removeId_not_mem _ _

/-- Witness for the amended C1 at the concrete error-reason packet. -/
theorem C1_amended_witness :
    (C1packet.payload_variant = some (.decoded C1data) ∧
     C1data.portnum = .routingApp ∧
     C1data.payload = .routingBytes { variant := some (.errorReason 3) } ∧
     C1data.request_id = 5 ∧ (5 : Nat) ≠ 0 ∧
     5 ∈ ({ ackWaiters := [5], routeWaiters := [] } : Registries).ackWaiters) ∧
    ((process_mesh_packet 1000 C1packet DeviceState.new
        { ackWaiters := [5], routeWaiters := [] }).ackEvents = [(5, true)] ∧
     5 ∉ (process_mesh_packet 1000 C1packet DeviceState.new
        { ackWaiters := [5], routeWaiters := [] }).regs.ackWaiters ∧
     send_text_with_ack 5 [] true true (.valueSent true) [] = (.ok true, [])) :=
  ⟨⟨by decide, by decide, by decide, by decide, by decide, by decide⟩,
   C1_amended 1000 C1packet C1data DeviceState.new
     { ackWaiters := [5], routeWaiters := [] } 5 3 [] []
     (by decide) (by decide) (by decide) (by decide) (by decide) (by decide)⟩

/-- Claim C2 counterexample: a send_text_with_ack call whose outbound send
    fails right after registering correlation id 5 returns the error to the
    caller with the entry still registered — the entry is not removed by
    either matching-reply arrival or timeout expiry, contradicting the
    claimed removal guarantee for the send-failure case. -/
theorem C2_counterexample :
    send_text_with_ack 5 [] true false .timedOut [] = (.err, [5]) ∧
    5 ∈ (send_text_with_ack 5 [] true false .timedOut []).2 := by
  constructor <;> decide

/-- Claim C2 amended: for entries whose outbound send succeeds the guarantee
    holds — a matching reply resolves and removes the entry exactly once
    (one resolution event), a second matching reply after resolution leaves
    the ack registry unchanged with no event, and the timeout arm removes by
    remove-if-present so after a resolution it is a no-op (reply and timeout
    can never both take effect; the route registry behaves the same way for
    route replies) — but when get_api fails or the outbound send fails after
    registration, the call returns an error and the entry remains
    registered. -/
theorem C2_amended (now : Nat) (mp : MeshPacket) (d : MeshData) (st : DeviceState)
    (regs : Registries) (X : Nat) (route : RouteDiscovery) (reg0 regAtEnd : List Nat)
    (hpv : mp.payload_variant = some (.decoded d))
    (hrid : d.request_id = X) (hX : X ≠ 0) :
    (X ∈ regs.ackWaiters →
      (d.portnum = .routingApp ∨ (mp.id ≠ 0 ∧ mp.want_ack = false)) →
      (process_mesh_packet now mp st regs).regs.ackWaiters = removeId X regs.ackWaiters ∧
      (process_mesh_packet now mp st regs).ackEvents = [(X, true)] ∧
      X ∉ (process_mesh_packet now mp st regs).regs.ackWaiters) ∧
    (X ∉ regs.ackWaiters →
      (process_mesh_packet now mp st regs).regs.ackWaiters = regs.ackWaiters ∧
      (process_mesh_packet now mp st regs).ackEvents = []) ∧
    (X ∉ regs.ackWaiters → removeId X regs.ackWaiters = regs.ackWaiters) ∧
    (send_text_with_ack X reg0 true false .timedOut regAtEnd = (.err, insertId X reg0) ∧
     send_text_with_ack X reg0 false true .timedOut regAtEnd = (.err, insertId X reg0) ∧
     send_traceroute X reg0 true false .timedOut regAtEnd = (.err, insertId X reg0) ∧
     X ∈ insertId X reg0) ∧
    (d.portnum = .routingApp →
      d.payload = .routingBytes { variant := some (.routeReply route) } →
      (X ∈ regs.routeWaiters →
        (process_mesh_packet now mp st regs).regs.routeWaiters =
          removeId X regs.routeWaiters ∧
        (process_mesh_packet now mp st regs).routeEvents =
          [(X, buildHops st route.route)] ∧
        X ∉ (process_mesh_packet now mp st regs).regs.routeWaiters) ∧
      (X ∉ regs.routeWaiters →
        (process_mesh_packet now mp st regs).regs.routeWaiters = regs.routeWaiters ∧
        (process_mesh_packet now mp st regs).routeEvents = [])) := by
  subst hrid
  obtain ⟨ha, he⟩ := process_mesh_packet_ack_char now mp d st regs hpv
  refine ⟨?_, ?_, ?_, ?_, ?_⟩
  · intro hmem hvia
    have hcond : d.request_id ≠ 0 ∧ d.request_id ∈ regs.ackWaiters ∧
        (d.portnum = .routingApp ∨ (mp.id ≠ 0 ∧ mp.want_ack = false)) :=
      ⟨hX, hmem, hvia⟩
    rw [ha, he, if_pos hcond, if_pos hcond]
    exact ⟨rfl, rfl, removeId_not_mem _ _⟩
  · intro hnot
    have hcond : ¬(d.request_id ≠ 0 ∧ d.request_id ∈ regs.ackWaiters ∧
        (d.portnum = .routingApp ∨ (mp.id ≠ 0 ∧ mp.want_ack = false))) :=
      fun hcc => hnot hcc.2.1
    rw [ha, he, if_neg hcond, if_neg hcond]
    exact ⟨rfl, rfl⟩
  · intro hnot
    exact removeId_eq_self_of_not_mem hnot
  · exact ⟨rfl, rfl, rfl, mem_insertId _ reg0⟩
  · intro hport hp
    obtain ⟨ra, re⟩ := process_mesh_packet_route_char now mp d st regs route hpv hport hp
    constructor
    · intro hmem
      have hcond : d.request_id ≠ 0 ∧ d.request_id ∈ regs.routeWaiters := ⟨hX, hmem⟩
      rw [ra, re, if_pos hcond, if_pos hcond]
      exact ⟨rfl, rfl, removeId_not_mem _ _⟩
    · intro hnot
      have hcond : ¬(d.request_id ≠ 0 ∧ d.request_id ∈ regs.routeWaiters) :=
        fun hcc => hnot hcc.2
      rw [ra, re, if_neg hcond, if_neg hcond]
      exact ⟨rfl, rfl⟩

/-- A routing-category route-reply envelope with request id 9, used by the
    C2 witness. -/
def C2data : MeshData :=
  { portnum := .routingApp,
    payload := .routingBytes
      { variant := some (.routeReply
          { route := [17, 34], route_back := [], snr_back := [], snr_towards := [] }) },
    want_response := false, dest := 0, source := 0, request_id := 9,
    reply_id := 0, emoji := 0 }

def C2packet : MeshPacket :=
  { fromNode := 17, toNode := 1, id := 321, channel := 0, rx_time := 0,
    rx_snr := 0, want_ack := false, rx_rssi := 0,
    payload_variant := some (.decoded C2data) }

/-- Witness for the amended C2 at a concrete route-reply packet with
    pending ack and route entries for id 9. -/
theorem C2_amended_witness :
    (C2packet.payload_variant = some (.decoded C2data) ∧
     C2data.request_id = 9 ∧ (9 : Nat) ≠ 0) ∧
    ((9 ∈ ({ ackWaiters := [9], routeWaiters := [9] } : Registries).ackWaiters →
      (C2data.portnum = .routingApp ∨ (C2packet.id ≠ 0 ∧ C2packet.want_ack = false)) →
      (process_mesh_packet 10 C2packet DeviceState.new
          { ackWaiters := [9], routeWaiters := [9] }).regs.ackWaiters =
        removeId 9 [9] ∧
      (process_mesh_packet 10 C2packet DeviceState.new
          { ackWaiters := [9], routeWaiters := [9] }).ackEvents = [(9, true)] ∧
      9 ∉ (process_mesh_packet 10 C2packet DeviceState.new
          { ackWaiters := [9], routeWaiters := [9] }).regs.ackWaiters) ∧
     (9 ∉ ({ ackWaiters := [9], routeWaiters := [9] } : Registries).ackWaiters →
      (process_mesh_packet 10 C2packet DeviceState.new
          { ackWaiters := [9], routeWaiters := [9] }).regs.ackWaiters = [9] ∧
      (process_mesh_packet 10 C2packet DeviceState.new
          { ackWaiters := [9], routeWaiters := [9] }).ackEvents = []) ∧
     (9 ∉ ({ ackWaiters := [9], routeWaiters := [9] } : Registries).ackWaiters →
      removeId 9 [9] = [9]) ∧
     (send_text_with_ack 9 [] true false .timedOut [] = (.err, insertId 9 []) ∧
      send_text_with_ack 9 [] false true .timedOut [] = (.err, insertId 9 []) ∧
      send_traceroute 9 [] true false .timedOut [] = (.err, insertId 9 []) ∧
      9 ∈ insertId 9 []) ∧
     (C2data.portnum = .routingApp →
      C2data.payload = .routingBytes
        { variant := some (.routeReply
            { route := [17, 34], route_back := [], snr_back := [],
              snr_towards := [] }) } →
      (9 ∈ ({ ackWaiters := [9], routeWaiters := [9] } : Registries).routeWaiters →
        (process_mesh_packet 10 C2packet DeviceState.new
            { ackWaiters := [9], routeWaiters := [9] }).regs.routeWaiters =
          removeId 9 [9] ∧
        (process_mesh_packet 10 C2packet DeviceState.new
            { ackWaiters := [9], routeWaiters := [9] }).routeEvents =
          [(9, buildHops DeviceState.new [17, 34])] ∧
        9 ∉ (process_mesh_packet 10 C2packet DeviceState.new
            { ackWaiters := [9], routeWaiters := [9] }).regs.routeWaiters) ∧
      (9 ∉ ({ ackWaiters := [9], routeWaiters := [9] } : Registries).routeWaiters →
        (process_mesh_packet 10 C2packet DeviceState.new
            { ackWaiters := [9], routeWaiters := [9] }).regs.routeWaiters = [9] ∧
        (process_mesh_packet 10 C2packet DeviceState.new
            { ackWaiters := [9], routeWaiters := [9] }).routeEvents = []))) :=
  ⟨⟨by decide, by decide, by decide⟩,
   C2_amended 10 C2packet C2data DeviceState.new
     { ackWaiters := [9], routeWaiters := [9] } 9
     { route := [17, 34], route_back := [], snr_back := [], snr_towards := [] }
     [] [] (by decide) (by decide) (by decide)⟩

/-- A text-category envelope with mesh-packet id 0 whose decoded payload
    carries request id 7, processed while 7 has a pending ack waiter. -/
def C3data : MeshData :=
  { portnum := .textMessageApp, payload := .textBytes "hello",
    want_response := false, dest := 0, source := 0, request_id := 7,
    reply_id := 0, emoji := 0 }

def C3packet : MeshPacket :=
  { fromNode := 1, toNode := 2, id := 0, channel := 0, rx_time := 0,
    rx_snr := 0, want_ack := false, rx_rssi := 0,
    payload_variant := some (.decoded C3data) }

def C3run : ProcOut :=
  process_mesh_packet 50 C3packet DeviceState.new
    { ackWaiters := [7], routeWaiters := [] }

/-- Claim C3 counterexample: a text-category envelope whose decoded payload
    carries request id 7 matching the pending ack entry, but whose
    mesh-packet id is zero, resolves nothing: no ack waiter receives a value
    and the entry 7 stays in the registry, contradicting the claim that
    every such envelope resolves the entry with success. -/
theorem C3_counterexample :
    C3run.ackEvents = [] ∧
    7 ∈ C3run.regs.ackWaiters := by
  constructor <;> decide

/-- Claim C3 amended: an envelope whose decoded payload carries a request id
    X with a pending ack entry resolves that entry with success exactly when
    X is non-zero and either the envelope is routing-category, or the
    envelope has a non-zero mesh-packet id and does not itself request an
    acknowledgement; under the same condition, and only then, X is removed
    from the ack registry. -/
theorem C3_amended (now : Nat) (mp : MeshPacket) (d : MeshData) (st : DeviceState)
    (regs : Registries) (X : Nat)
    (hpv : mp.payload_variant = some (.decoded d))
    (hrid : d.request_id = X) (hmem : X ∈ regs.ackWaiters) :
    (((X, true) ∈ (process_mesh_packet now mp st regs).ackEvents) ↔
      (X ≠ 0 ∧ (d.portnum = .routingApp ∨ (mp.id ≠ 0 ∧ mp.want_ack = false)))) ∧
    ((X ∉ (process_mesh_packet now mp st regs).regs.ackWaiters) ↔
      (X ≠ 0 ∧ (d.portnum = .routingApp ∨ (mp.id ≠ 0 ∧ mp.want_ack = false)))) := by
  subst hrid
  obtain ⟨ha, he⟩ := process_mesh_packet_ack_char now mp d st regs hpv
  by_cases hcond : d.request_id ≠ 0 ∧ d.request_id ∈ regs.ackWaiters ∧
      (d.portnum = .routingApp ∨ (mp.id ≠ 0 ∧ mp.want_ack = false))
  · rw [ha, he, if_pos hcond, if_pos hcond]
    constructor
    · exact iff_of_true (by simp) ⟨hcond.1, hcond.2.2⟩
    · exact iff_of_true (removeId_not_mem _ _) ⟨hcond.1, hcond.2.2⟩
  · have hcond2 : ¬(d.request_id ≠ 0 ∧
        (d.portnum = .routingApp ∨ (mp.id ≠ 0 ∧ mp.want_ack = false))) :=
      fun hcc => hcond ⟨hcc.1, hmem, hcc.2⟩
    rw [ha, he, if_neg hcond, if_neg hcond]
    constructor
    · exact iff_of_false (by simp) hcond2
    · exact iff_of_false (fun hn => hn hmem) hcond2

/-- Witness for the amended C3 at the concrete text-category packet with
    zero mesh-packet id: the resolution condition is false on both sides. -/
theorem C3_amended_witness :
    (C3packet.payload_variant = some (.decoded C3data) ∧
     C3data.request_id = 7 ∧
     7 ∈ ({ ackWaiters := [7], routeWaiters := [] } : Registries).ackWaiters) ∧
    ((((7, true) ∈ (process_mesh_packet 50 C3packet DeviceState.new
        { ackWaiters := [7], routeWaiters := [] }).ackEvents) ↔
      ((7 : Nat) ≠ 0 ∧ (C3data.portnum = .routingApp ∨
        (C3packet.id ≠ 0 ∧ C3packet.want_ack = false)))) ∧
     ((7 ∉ (process_mesh_packet 50 C3packet DeviceState.new
        { ackWaiters := [7], routeWaiters := [] }).regs.ackWaiters) ↔
      ((7 : Nat) ≠ 0 ∧ (C3data.portnum = .routingApp ∨
        (C3packet.id ≠ 0 ∧ C3packet.want_ack = false))))) :=
  ⟨⟨by decide, by decide, by decide⟩,
   C3_amended 50 C3packet C3data DeviceState.new
     { ackWaiters := [7], routeWaiters := [] } 7
     (by decide) (by decide) (by decide)⟩

/-! ## Node last-write-wins lemmas and claim C6 -/

theorem run_ingestion_nodeInfos (now : Nat) (es : List NodeInfoProto)
    (st : DeviceState) (regs : Registries) :
    run_ingestion now
        (es.map (fun n => ({ payload_variant := some (.nodeInfo n) } : FromRadio)))
        st regs =
      ({ st with nodes :=
          es.foldl (fun acc n => insertKey n.num (nodeInfoOfProto n) acc) st.nodes },
       regs) := by
  induction es generalizing st with
  | nil => simp [run_ingestion]
  | cons n rest ih =>
      simp only [List.map_cons, run_ingestion, process_from_radio_packet,
        DeviceState.update_node, List.foldl_cons]
      rw [ih]

theorem lookup_nodes_foldl (es : List NodeInfoProto) (m : List (Nat × NodeInfo))
    (k : Nat) :
    lookupKey k (es.foldl (fun acc n => insertKey n.num (nodeInfoOfProto n) acc) m) =
      match es.reverse.find? (fun n => n.num == k) with
      | some n => some (nodeInfoOfProto n)
      | none => lookupKey k m := by
  induction es generalizing m with
  | nil => simp
  | cons n rest ih =>
      simp only [List.foldl_cons, List.reverse_cons]
      rw [ih, List.find?_append]
      cases hf : rest.reverse.find? (fun x => x.num == k) with
      | some u => simp [Option.or]
      | none =>
          by_cases hk : n.num = k
          · simp [List.find?, Option.or, hk, lookupKey_insertKey]
          · have hkb : (n.num == k) = false := by
              simp [hk]
            simp [List.find?, Option.or, hkb, lookupKey_insertKey, hk]

theorem nodup_nodes_foldl (es : List NodeInfoProto) (m : List (Nat × NodeInfo))
    (h : (m.map Prod.fst).Nodup) :
    ((es.foldl (fun acc n => insertKey n.num (nodeInfoOfProto n) acc) m).map
        Prod.fst).Nodup := by
  induction es generalizing m with
  | nil => exact h
  | cons n rest ih => exact ih _ (nodup_keys_insertKey h)

/-- Claim C6: after the ingestion loop processes any finite sequence of
    node-identity envelopes starting from the empty state, the nodes map
    holds, for each node number, exactly the record built (by
    nodeInfoOfProto) from the most recently processed update for that number
    — a full replace, not a merge — its keys are unique, and it has an entry
    exactly for the node numbers seen. -/
theorem C6_nodes_last_write_wins (now : Nat) (es : List NodeInfoProto) :
    (∀ k, lookupKey k ((run_ingestion now
        (es.map (fun n => ({ payload_variant := some (.nodeInfo n) } : FromRadio)))
        DeviceState.new { ackWaiters := [], routeWaiters := [] }).1.nodes) =
      (es.reverse.find? (fun n => n.num == k)).map nodeInfoOfProto) ∧
    ((((run_ingestion now
        (es.map (fun n => ({ payload_variant := some (.nodeInfo n) } : FromRadio)))
        DeviceState.new { ackWaiters := [], routeWaiters := [] }).1.nodes).map
        Prod.fst).Nodup) ∧
    (∀ k, k ∈ ((run_ingestion now
        (es.map (fun n => ({ payload_variant := some (.nodeInfo n) } : FromRadio)))
        DeviceState.new { ackWaiters := [], routeWaiters := [] }).1.nodes).map
        Prod.fst ↔ k ∈ es.map NodeInfoProto.num) := by
  rw [run_ingestion_nodeInfos now es DeviceState.new { ackWaiters := [], routeWaiters := [] }]
  refine ⟨?_, ?_, ?_⟩
  · intro k
    rw [lookup_nodes_foldl]
    cases hf : es.reverse.find? (fun n => n.num == k) with
    | some u => simp
    | none => simp [lookupKey]
  · exact nodup_nodes_foldl es [] (by simp)
  · intro k
    rw [← lookupKey_isSome_iff, lookup_nodes_foldl]
    cases hf : es.reverse.find? (fun n => n.num == k) with
    | some u =>
        simp only [Option.isSome_some, true_iff]
        have hu : u ∈ es.reverse := List.mem_of_find?_eq_some hf
        rw [List.mem_reverse] at hu
        have hnum : u.num = k := by
          have := List.find?_some hf
          simpa using this
        exact hnum ▸ List.mem_map_of_mem NodeInfoProto.num hu
    | none =>
        simp only [lookupKey, Option.isSome_none, Bool.false_eq_true, false_iff]
        intro hk
        rcases List.mem_map.mp hk with ⟨u, hu, hnum⟩
        have hall := List.find?_eq_none.mp hf
        have : ¬(u.num == k) = true := hall u (List.mem_reverse.mpr hu)
        exact this (by simp [hnum])

end RMesh
